import Mathlib

/-!
Verification of the AmbuSched trip-assignment and optimization engine.

This file is a shallow embedding of the JavaScript optimization core
(the advanced optimization module, the return-course generator and the
fallback VRP solver) together with proofs of the behavioural properties
claimed by the specification.

Embedding conventions:
* a JavaScript value that may be `undefined` is an `Option`;
* `NaN` produced by arithmetic on unparsable strings is `Option.none`,
  and comparisons against `none` are `false`, as comparisons with `NaN` are;
* JavaScript numbers are exact rationals (`Rat`); `Math.round` is
  rounding half towards positive infinity;
* a thrown exception is `Except.error`;
* the Haversine distance (floating-point trigonometry) is an arbitrary
  function parameter `dist`, so every theorem quantifying over `dist`
  holds in particular for the concrete floating-point implementation;
* `Math.random()` is an explicit stream `Nat → Rat` consumed in call order;
* message strings are kept short and apostrophe-free; the claims never
  inspect message contents.
-/

namespace AmbuSched

/-- JS `Math.round` on an exact rational: floor of the value plus one half. -/
def jsRound (q : Rat) : Int := ⌊q + 1/2⌋

/-- Round to one decimal place, as `Math.round(x * 10) / 10`. -/
def roundTo1 (q : Rat) : Rat := (jsRound (q * 10) : Rat) / 10

/-- Round to two decimal places, as `Math.round(x * 100) / 100`. -/
def roundTo2 (q : Rat) : Rat := (jsRound (q * 100) : Rat) / 100

/-- The character for a single decimal digit. -/
def digitChar (k : Nat) : Char := Char.ofNat (48 + k)

/-- Decimal rendering of a natural number, most significant digit first.
This replicates the JS `String(n)` conversion for non-negative integers. -/
def natToChars (n : Nat) : List Char :=
  if _h : n < 10 then [digitChar n]
  else natToChars (n / 10) ++ [digitChar (n % 10)]
termination_by n
decreasing_by exact Nat.div_lt_self (by omega) (by omega)

/-- JS `String(n)` for an integer. -/
def intToChars (n : Int) : List Char :=
  if n < 0 then Char.ofNat 45 :: natToChars (-n).toNat else natToChars n.toNat

/-- Numeric value of a digit string, as accumulated by decimal positional
reading. -/
def digitsVal (l : List Char) : Nat :=
  l.foldl (fun a c => a * 10 + (c.toNat - 48)) 0

/-- JS `Number(s)` restricted to the digit strings that occur as time
components; the empty string is `0` and any non-digit content is `NaN`
(`none`).  (Sign markers, blanks and decimals never occur in the time
fields this model feeds to `Number`.) -/
def jsNumberChars (l : List Char) : Option Int :=
  if l.isEmpty then some 0
  else if l.all Char.isDigit then some (Int.ofNat (digitsVal l))
  else none

/-- `s.split(c)` of JavaScript on a character separator. -/
def splitOnChar (c : Char) : List Char → List (List Char)
  | [] => [[]]
  | x :: xs =>
    if x = c then [] :: splitOnChar c xs
    else
      match splitOnChar c xs with
      | [] => [[x]]
      | h :: t => (x :: h) :: t

/-- Parse `"HH:MM"` as minutes since midnight:
`const [hours, minutes] = timeStr.split(':').map(Number)` followed by
`hours * 60 + minutes`.  `none` models a `NaN` result. -/
def parseHM (t : String) : Option Int :=
  match splitOnChar (Char.ofNat 58) t.data with
  | [] => none
  | [_] => none
  | h :: m :: _ => do
    let hv ← jsNumberChars h
    let mv ← jsNumberChars m
    pure (hv * 60 + mv)

/-- `String(n).padStart(2, the digit zero)`. -/
def padStart2 (l : List Char) : List Char :=
  if l.length < 2 then digitChar 0 :: l else l

/-- Format an integer via `toString().padStart(2, ...)`. -/
def fmt2 (n : Int) : String := ⟨padStart2 (intToChars n)⟩

/-- JS string coalescing `a || b` where the empty string is falsy. -/
def jsOrS (a b : Option String) : Option String :=
  match a with
  | some s => if s = "" then b else some s
  | none => b

/-- Truthiness of an optional string: `undefined` and `""` are falsy. -/
def truthyS (a : Option String) : Option String :=
  match a with
  | some s => if s = "" then none else some s
  | none => none

/-- JS integer coalescing `a || b` where `0` (and `undefined`) are falsy. -/
def jsOrI (a : Option Int) (b : Int) : Int :=
  match a with
  | some x => if x = 0 then b else x
  | none => b

/-! ### Correctness of the decimal rendering

These lemmas connect the embedded `String(n)` rendering with the embedded
`Number` parsing, which is needed to state that the generated return-trip
times really are the source times shifted by the appointment duration. -/

theorem digitChar_isDigit {k : Nat} (h : k < 10) : (digitChar k).isDigit = true := by
  interval_cases k <;> decide

theorem digitChar_toNat {k : Nat} (h : k < 10) : (digitChar k).toNat - 48 = k := by
  interval_cases k <;> decide

theorem natToChars_all_digits (n : Nat) : (natToChars n).all Char.isDigit = true := by
  induction n using Nat.strong_induction_on with
  | _ n ih =>
    rw [natToChars]
    split
    · rename_i h
      simp [digitChar_isDigit h]
    · rename_i h
      have h1 := ih (n / 10) (Nat.div_lt_self (by omega) (by omega))
      have h2 : (digitChar (n % 10)).isDigit = true :=
        digitChar_isDigit (Nat.mod_lt n (by omega))
      simp [List.all_append, h1, h2]

theorem digitsVal_append (a b : List Char) :
    digitsVal (a ++ b) = b.foldl (fun x c => x * 10 + (c.toNat - 48)) (digitsVal a) := by
  simp [digitsVal, List.foldl_append]

theorem natToChars_digitsVal (n : Nat) : digitsVal (natToChars n) = n := by
  induction n using Nat.strong_induction_on with
  | _ n ih =>
    rw [natToChars]
    split
    · simp [digitsVal, digitChar_toNat ‹n < 10›]
    · rename_i h
      rw [digitsVal_append, ih (n / 10) (Nat.div_lt_self (by omega) (by omega))]
      simp [digitChar_toNat (Nat.mod_lt n (by omega))]
      omega

theorem natToChars_ne_nil (n : Nat) : natToChars n ≠ [] := by
  rw [natToChars]
  split
  · simp
  · simp

/-- Parsing the rendering of a natural number gives the number back. -/
theorem jsNumberChars_natToChars (n : Nat) : jsNumberChars (natToChars n) = some (Int.ofNat n) := by
  unfold jsNumberChars
  rw [if_neg (by simp [List.isEmpty_iff, natToChars_ne_nil]),
    if_pos (natToChars_all_digits n), natToChars_digitsVal]

/-- Parsing a zero-padded rendering also gives the number back. -/
theorem jsNumberChars_padStart2 (n : Nat) :
    jsNumberChars (padStart2 (natToChars n)) = some (Int.ofNat n) := by
  unfold padStart2
  split
  · have hall : (digitChar 0 :: natToChars n).all Char.isDigit = true := by
      have h0 : (digitChar 0).isDigit = true := by decide
      simp [List.all_cons, natToChars_all_digits n, h0]
    have hval : digitsVal (digitChar 0 :: natToChars n) = n := by
      have h0 : (digitChar 0).toNat = 48 := by decide
      show List.foldl (fun a c => a * 10 + (c.toNat - 48)) 0 (digitChar 0 :: natToChars n) = n
      rw [List.foldl_cons, h0]
      exact natToChars_digitsVal n
    unfold jsNumberChars
    rw [if_neg (by simp), if_pos hall, hval]
  · exact jsNumberChars_natToChars n

/-! ### Splitting on the colon separator -/

theorem splitOnChar_not_mem (c : Char) (l : List Char) (h : c ∉ l) :
    splitOnChar c l = [l] := by
  induction l with
  | nil => rfl
  | cons x xs ih =>
    simp only [List.mem_cons, not_or] at h
    unfold splitOnChar
    rw [if_neg (fun hxc => h.1 hxc.symm), ih h.2]

theorem splitOnChar_append (c : Char) (A B : List Char) (hA : c ∉ A) :
    splitOnChar c (A ++ c :: B) = A :: splitOnChar c B := by
  induction A with
  | nil =>
    show splitOnChar c (c :: B) = [] :: splitOnChar c B
    simp [splitOnChar]
  | cons x xs ih =>
    simp only [List.mem_cons, not_or] at hA
    show splitOnChar c (x :: (xs ++ c :: B)) = (x :: xs) :: splitOnChar c B
    simp only [splitOnChar]
    rw [if_neg (fun hxc => hA.1 hxc.symm), ih hA.2]

theorem not_colon_mem_digits {l : List Char} (h : l.all Char.isDigit = true) :
    Char.ofNat 58 ∉ l := by
  intro hm
  exact absurd (List.all_eq_true.mp h _ hm) (by decide)

theorem padStart2_all_digits (n : Nat) :
    (padStart2 (natToChars n)).all Char.isDigit = true := by
  unfold padStart2
  split
  · have h0 : (digitChar 0).isDigit = true := by decide
    simp [List.all_cons, natToChars_all_digits n, h0]
  · exact natToChars_all_digits n

/-- Format a number of minutes as the source does for exit and pickup
times: floor division for the hour part, the JS remainder for the minute
part, both zero-padded to two characters.  (The same formatting block
appears verbatim in calculateExitTime, calculateReturnPickupTime and
minutesToTime in the source.) -/
def fmtHM (x : Int) : String := fmt2 (x.fdiv 60) ++ ":" ++ fmt2 (x.tmod 60)

theorem intToChars_natCast (k : Nat) : intToChars ((k : Nat) : Int) = natToChars k := by
  unfold intToChars
  rw [if_neg (Int.not_lt.mpr (by exact_mod_cast Nat.zero_le k))]
  simp

/-- Formatting a non-negative number of minutes and parsing it back gives
the same number of minutes. -/
theorem parseHM_fmtHM (x : Int) (hx : 0 ≤ x) : parseHM (fmtHM x) = some x := by
  obtain ⟨n, rfl⟩ := Int.eq_ofNat_of_zero_le hx
  have hfd : ((n : Nat) : Int).fdiv 60 = ((n / 60 : Nat) : Int) := by
    exact_mod_cast (Int.ofNat_fdiv n 60).symm
  have htm : ((n : Nat) : Int).tmod 60 = ((n % 60 : Nat) : Int) := by
    exact_mod_cast (Int.ofNat_tmod n 60).symm
  have hdata : (fmtHM ((n : Nat) : Int)).data =
      padStart2 (natToChars (n / 60)) ++ Char.ofNat 58 :: padStart2 (natToChars (n % 60)) := by
    unfold fmtHM fmt2
    rw [hfd, htm, intToChars_natCast, intToChars_natCast]
    simp
  unfold parseHM
  rw [hdata,
    splitOnChar_append _ _ _ (not_colon_mem_digits (padStart2_all_digits (n / 60))),
    splitOnChar_not_mem _ _ (not_colon_mem_digits (padStart2_all_digits (n % 60)))]
  show (do
    let hv ← jsNumberChars (padStart2 (natToChars (n / 60)))
    let mv ← jsNumberChars (padStart2 (natToChars (n % 60)))
    pure (hv * 60 + mv)) = some ((n : Nat) : Int)
  rw [jsNumberChars_padStart2, jsNumberChars_padStart2]
  show some (Int.ofNat (n / 60) * 60 + Int.ofNat (n % 60)) = some ((n : Nat) : Int)
  congr 1
  simp only [Int.ofNat_eq_coe]
  push_cast
  omega

/-! ### The data model

Trips (courses) and vehicles are duck-typed records in the source; a
field that is optional somewhere in the optimization core is an `Option`
here.  Enumeration-like fields (vehicle type, priority, status) keep
their string representations, since the source compares raw strings and
supplies defaults for unknown values. -/

structure Trip where
  id : Int := 0
  patient : String := ""
  pickup : Option String := none
  destination : Option String := none
  pickupTime : Option String := none
  time : Option String := none
  appointmentTime : Option String := none
  returnTime : Option String := none
  duration : Option Int := none
  vehicleType : Option String := none
  priority : Option String := none
  isReturnTrip : Bool := false
  originalCourseId : Option Int := none
  coordinates : Option (List Rat) := none
  destinationCoords : Option (List Rat) := none
  exitTime : Option String := none
  earliestPickupTime : Option String := none
  maxWaitTime : Option Int := none
  estimatedDuration : Option Rat := none
  status : Option String := none
deriving DecidableEq, Repr

structure Vehicle where
  id : Int := 0
  name : String := ""
  type : Option String := none
  status : Option String := none
  currentLocation : Option String := none
  coordinates : Option (List Rat) := none
  trips : Option (List Trip) := none
deriving DecidableEq, Repr

/-- Every successful parse of a time string is non-negative, because the
digit strings accepted by the embedded `Number` only denote naturals. -/
theorem jsNumberChars_nonneg (l : List Char) (v : Int) (h : jsNumberChars l = some v) :
    0 ≤ v := by
  unfold jsNumberChars at h
  split at h
  · cases h; decide
  · split at h
    · cases h; exact Int.ofNat_nonneg _
    · cases h

theorem parseHM_nonneg (t : String) (m : Int) (h : parseHM t = some m) : 0 ≤ m := by
  unfold parseHM at h
  cases hs : splitOnChar (Char.ofNat 58) t.data with
  | nil => rw [hs] at h; cases h
  | cons a tl =>
    cases tl with
    | nil => rw [hs] at h; cases h
    | cons b tl2 =>
      rw [hs] at h
      have h2 : ((jsNumberChars a).bind fun hv =>
          (jsNumberChars b).bind fun mv => some (hv * 60 + mv)) = some m := h
      cases hh : jsNumberChars a with
      | none => rw [hh] at h2; simp at h2
      | some hv =>
        cases hm2 : jsNumberChars b with
        | none => rw [hh, hm2] at h2; simp at h2
        | some mv =>
          rw [hh, hm2] at h2
          simp at h2
          have n1 := jsNumberChars_nonneg _ _ hh
          have n2 := jsNumberChars_nonneg _ _ hm2
          omega

/-! ## The return-course generator

Embedding of the return-course section of the source: calculateExitTime,
calculateReturnPickupTime, generateReturnCourse, generateReturnCourses and
processCoursesWithReturns. -/

namespace ReturnCourses

/-- calculateExitTime(appointmentTime, duration): splits the appointment
time, adds the duration and formats the result with Math.floor for hours
and the JS remainder for minutes.  A missing appointment time throws
(split on undefined); an unparsable one, or a missing duration, makes the
arithmetic NaN and the rendering the NaN string. -/
def calculateExitTime (appointmentTime : Option String) (duration : Option Int) :
    Except String String :=
  match appointmentTime with
  | none => .error "TypeError: split of undefined"
  | some t =>
    match parseHM t, duration with
    | some m, some d => .ok (fmtHM (m + d))
    | _, _ => .ok "NaN:NaN"

/-- calculateReturnPickupTime(exitTime, bufferMinutes): the exit time plus
the buffer, formatted the same way. -/
def calculateReturnPickupTime (exitTime : String) (bufferMinutes : Int) : String :=
  match parseHM exitTime with
  | some m => fmtHM (m + bufferMinutes)
  | none => "NaN:NaN"

/-- generateReturnCourse(originalCourse, newId): exit time is the truthy
returnTime, else appointment time plus duration; pickup and destination
and their coordinate arrays are swapped; the earliest pickup time adds a
15-minute buffer.  Spreading a missing coordinate array throws. -/
def exitTimeOf (originalCourse : Trip) : Except String String :=
  match truthyS originalCourse.returnTime with
  | some rt => .ok rt
  | none => calculateExitTime originalCourse.appointmentTime originalCourse.duration

def generateReturnCourse (originalCourse : Trip) (newId : Int) : Except String Trip :=
  match exitTimeOf originalCourse with
  | .error e => .error e
  | .ok exitTime =>
    match originalCourse.destinationCoords with
    | none => .error "TypeError: destinationCoords is not iterable"
    | some coords =>
      match originalCourse.coordinates with
      | none => .error "TypeError: coordinates is not iterable"
      | some destCoords =>
        .ok {
          id := newId
          patient := originalCourse.patient
          pickup := originalCourse.destination
          destination := originalCourse.pickup
          coordinates := some coords
          destinationCoords := some destCoords
          appointmentTime := some exitTime
          duration := some 30
          returnTime := none
          isReturnTrip := true
          originalCourseId := some originalCourse.id
          vehicleType := jsOrS originalCourse.vehicleType (some "VSL")
          exitTime := some exitTime
          earliestPickupTime := some (calculateReturnPickupTime exitTime 15)
          maxWaitTime := some 240 }

/-- course.duration && course.duration > 0. -/
def hasValidDuration (course : Trip) : Bool :=
  match course.duration with
  | some d => decide (0 < d)
  | none => false

/-- course.returnTime && course.returnTime !== "00:00" && !== "0:00". -/
def hasValidReturnTime (course : Trip) : Bool :=
  match truthyS course.returnTime with
  | some rt => decide (rt ≠ "00:00") && decide (rt ≠ "0:00")
  | none => false

/-- The generation condition of generateReturnCourses. -/
def qualifies (course : Trip) : Bool :=
  !course.isReturnTrip && (hasValidDuration course || hasValidReturnTime course)

/-- The forEach body of generateReturnCourses: walk the courses, pushing a
generated return course (with a pre-incremented id) for every qualifying
non-return course. -/
def generateReturnCoursesAux : List Trip → List Trip → Int → Except String (List Trip)
  | [], returnCourses, _ => .ok returnCourses
  | course :: rest, returnCourses, maxId =>
    if qualifies course then
      match generateReturnCourse course (maxId + 1) with
      | .ok rc => generateReturnCoursesAux rest (returnCourses ++ [rc]) (maxId + 1)
      | .error e => .error e
    else generateReturnCoursesAux rest returnCourses maxId

/-- generateReturnCourses(courses): ids start above Math.max of the
existing ids and zero. -/
def generateReturnCourses (courses : List Trip) : Except String (List Trip) :=
  generateReturnCoursesAux courses [] (courses.foldl (fun m c => max m c.id) 0)

/-- processCoursesWithReturns(courses): the originals followed by all
generated returns. -/
def processCoursesWithReturns (courses : List Trip) : Except String (List Trip) :=
  (generateReturnCourses courses).map (fun r => courses ++ r)

/-- Whatever generateReturnCourse returns successfully carries the
return-trip marker and the source id. -/
theorem generateReturnCourse_fields (c : Trip) (n : Int) (rt : Trip)
    (h : generateReturnCourse c n = .ok rt) :
    rt.isReturnTrip = true ∧ rt.originalCourseId = some c.id := by
  unfold generateReturnCourse at h
  split at h
  · cases h
  · split at h
    · cases h
    · split at h
      · cases h
      · cases h
        exact ⟨rfl, rfl⟩

/-- Invariant of the generation walk: the output extends the accumulator
with one generated course per qualifying input course, each marked as a
return trip and pointing back to a qualifying non-return source. -/
theorem generateReturnCoursesAux_spec (courses : List Trip) :
    ∀ (acc : List Trip) (maxId : Int) (rts : List Trip),
      generateReturnCoursesAux courses acc maxId = .ok rts →
      rts.length = acc.length + (courses.filter qualifies).length ∧
      ∀ rt ∈ rts, rt ∈ acc ∨
        (rt.isReturnTrip = true ∧ ∃ c ∈ courses, qualifies c = true ∧
          rt.originalCourseId = some c.id) := by
  induction courses with
  | nil =>
    intro acc maxId rts h
    cases h
    exact ⟨by simp, fun rt hrt => Or.inl hrt⟩
  | cons course rest ih =>
    intro acc maxId rts h
    unfold generateReturnCoursesAux at h
    by_cases hq : qualifies course = true
    · rw [if_pos hq] at h
      cases hgen : generateReturnCourse course (maxId + 1) with
      | error e => rw [hgen] at h; cases h
      | ok rc =>
        rw [hgen] at h
        obtain ⟨hlen, hmem⟩ := ih (acc ++ [rc]) (maxId + 1) rts h
        constructor
        · rw [hlen]
          simp [List.filter_cons, hq]
          omega
        · intro rt hrt
          rcases hmem rt hrt with hacc | hrest
          · rcases List.mem_append.mp hacc with h1 | h1
            · exact Or.inl h1
            · have : rt = rc := by simpa using h1
              subst this
              obtain ⟨hf1, hf2⟩ := generateReturnCourse_fields course (maxId + 1) rt hgen
              exact Or.inr ⟨hf1, course, List.mem_cons_self course rest, hq, hf2⟩
          · obtain ⟨hf1, c, hc, hcq, hcid⟩ := hrest
            exact Or.inr ⟨hf1, c, List.mem_cons_of_mem course hc, hcq, hcid⟩
    · rw [if_neg hq] at h
      obtain ⟨hlen, hmem⟩ := ih acc maxId rts h
      constructor
      · rw [hlen]
        simp [List.filter_cons, hq]
      · intro rt hrt
        rcases hmem rt hrt with hacc | hrest
        · exact Or.inl hacc
        · obtain ⟨hf1, c, hc, hcq, hcid⟩ := hrest
          exact Or.inr ⟨hf1, c, List.mem_cons_of_mem course hc, hcq, hcid⟩

/-- With an appointment time present, calculateExitTime never throws. -/
theorem calculateExitTime_ok (a : String) (d : Option Int) :
    ∃ e, calculateExitTime (some a) d = .ok e := by
  unfold calculateExitTime
  cases hp : parseHM a with
  | none =>
    cases d with
    | none => exact ⟨"NaN:NaN", by simp [hp]⟩
    | some dv => exact ⟨"NaN:NaN", by simp [hp]⟩
  | some m =>
    cases d with
    | none => exact ⟨"NaN:NaN", by simp [hp]⟩
    | some dv => exact ⟨fmtHM (m + dv), by simp [hp]⟩

/-- Claim C4 (amended): for every non-return trip meeting the generation
condition whose coordinate arrays are present and whose appointment time
is present whenever no truthy returnTime is, generateReturnCourse swaps
pickup and destination and their coordinates, marks the result as a
return trip pointing at the source id, sets the maximal wait to 240 and
derives exitTime from returnTime, or else from appointment time plus
duration, with the earliest pickup 15 minutes after the exit. -/
theorem generateReturnCourse_spec (trip : Trip) (newId : Int) (cs ds : List Rat)
    (_hnr : trip.isReturnTrip = false)
    (hcond : (hasValidDuration trip || hasValidReturnTime trip) = true)
    (hcs : trip.coordinates = some cs)
    (hds : trip.destinationCoords = some ds)
    (happt : truthyS trip.returnTime = none → trip.appointmentTime ≠ none) :
    ∃ rt, generateReturnCourse trip newId = .ok rt ∧
      rt.id = newId ∧
      rt.pickup = trip.destination ∧
      rt.destination = trip.pickup ∧
      rt.coordinates = some ds ∧
      rt.destinationCoords = some cs ∧
      rt.isReturnTrip = true ∧
      rt.originalCourseId = some trip.id ∧
      rt.maxWaitTime = some 240 ∧
      (∀ s, truthyS trip.returnTime = some s →
        rt.exitTime = some s ∧
        ∀ ms, parseHM s = some ms →
          parseHM ((rt.earliestPickupTime).getD "") = some (ms + 15)) ∧
      (∀ a m d, truthyS trip.returnTime = none → trip.appointmentTime = some a →
        parseHM a = some m → trip.duration = some d →
        rt.exitTime = some (fmtHM (m + d)) ∧
        parseHM ((rt.exitTime).getD "") = some (m + d) ∧
        parseHM ((rt.earliestPickupTime).getD "") = some (m + d + 15)) := by
  cases hrt : truthyS trip.returnTime with
  | some s =>
    have hgen : generateReturnCourse trip newId = .ok {
        id := newId
        patient := trip.patient
        pickup := trip.destination
        destination := trip.pickup
        coordinates := some ds
        destinationCoords := some cs
        appointmentTime := some s
        duration := some 30
        returnTime := none
        isReturnTrip := true
        originalCourseId := some trip.id
        vehicleType := jsOrS trip.vehicleType (some "VSL")
        exitTime := some s
        earliestPickupTime := some (calculateReturnPickupTime s 15)
        maxWaitTime := some 240 } := by
      unfold generateReturnCourse exitTimeOf
      rw [hrt, hds, hcs]
    refine ⟨_, hgen, rfl, rfl, rfl, rfl, rfl, rfl, rfl, rfl, ?_, ?_⟩
    · intro s2 hs2
      cases hs2
      refine ⟨rfl, ?_⟩
      intro ms hms
      show parseHM (calculateReturnPickupTime s 15) = some (ms + 15)
      unfold calculateReturnPickupTime
      rw [hms]
      exact parseHM_fmtHM (ms + 15) (by have := parseHM_nonneg s ms hms; omega)
    · intro a m d hnone
      cases hnone
  | none =>
    have hvr : hasValidReturnTime trip = false := by
      unfold hasValidReturnTime
      rw [hrt]
    obtain ⟨a, ha⟩ : ∃ a, trip.appointmentTime = some a := by
      cases hA : trip.appointmentTime with
      | none => exact absurd hA (happt hrt)
      | some a => exact ⟨a, rfl⟩
    obtain ⟨e, he⟩ := calculateExitTime_ok a trip.duration
    have hgen : generateReturnCourse trip newId = .ok {
        id := newId
        patient := trip.patient
        pickup := trip.destination
        destination := trip.pickup
        coordinates := some ds
        destinationCoords := some cs
        appointmentTime := some e
        duration := some 30
        returnTime := none
        isReturnTrip := true
        originalCourseId := some trip.id
        vehicleType := jsOrS trip.vehicleType (some "VSL")
        exitTime := some e
        earliestPickupTime := some (calculateReturnPickupTime e 15)
        maxWaitTime := some 240 } := by
      unfold generateReturnCourse exitTimeOf
      rw [hrt, ha, he, hds, hcs]
    refine ⟨_, hgen, rfl, rfl, rfl, rfl, rfl, rfl, rfl, rfl, ?_, ?_⟩
    · intro s2 hs2
      cases hs2
    · intro a2 m d _ ha2 hpm2 hd2
      rw [ha] at ha2
      cases ha2
      have hE : calculateExitTime (some a) trip.duration = .ok (fmtHM (m + d)) := by
        simp [calculateExitTime, hpm2, hd2]
      have heq : e = fmtHM (m + d) := by
        have := he.symm.trans hE
        exact Except.ok.inj this
      subst heq
      have hm0 : 0 ≤ m := parseHM_nonneg a m hpm2
      have hd0 : 0 < d := by
        have hvd : hasValidDuration trip = true := by
          rw [hvr] at hcond
          simpa using hcond
        unfold hasValidDuration at hvd
        rw [hd2] at hvd
        simpa using hvd
      refine ⟨rfl, ?_, ?_⟩
      · show parseHM (fmtHM (m + d)) = some (m + d)
        exact parseHM_fmtHM (m + d) (by omega)
      · show parseHM (calculateReturnPickupTime (fmtHM (m + d)) 15) = some (m + d + 15)
        unfold calculateReturnPickupTime
        rw [parseHM_fmtHM (m + d) (by omega)]
        exact parseHM_fmtHM (m + d + 15) (by omega)

/-- The qualifying trip used by the C4 counterexample: a positive
duration but no appointment time and no return time. -/
def tripMissingAppointment : Trip :=
  { id := 7, patient := "A", pickup := some "Hyères", destination := some "Toulon",
    duration := some 45, coordinates := some [6, 43], destinationCoords := some [5, 43] }

/-- Claim C4 counterexample: this non-return trip meets the generation
condition (duration 45 is positive), yet generateReturnCourse throws
instead of building the described return trip, because the appointment
time is absent and split is called on undefined. -/
theorem generateReturnCourse_missing_appointment :
    tripMissingAppointment.isReturnTrip = false ∧
    hasValidDuration tripMissingAppointment = true ∧
    generateReturnCourse tripMissingAppointment 8 =
      Except.error "TypeError: split of undefined" :=
  ⟨rfl, rfl, rfl⟩

/-- A well-formed appointment trip for the C4 witness. -/
def tripWellFormed : Trip :=
  { id := 1, patient := "B", pickup := some "Hyères", destination := some "Toulon",
    appointmentTime := some "09:00", duration := some 45,
    coordinates := some [6, 43], destinationCoords := some [5, 43] }

theorem generateReturnCourse_spec_witness :
    ∃ rt, generateReturnCourse tripWellFormed 2 = Except.ok rt ∧
      rt.pickup = tripWellFormed.destination ∧
      rt.destination = tripWellFormed.pickup ∧
      rt.isReturnTrip = true ∧
      rt.originalCourseId = some tripWellFormed.id ∧
      rt.maxWaitTime = some 240 := by
  obtain ⟨rt, h1, _, h3, h4, _, _, h7, h8, h9, _, _⟩ :=
    generateReturnCourse_spec tripWellFormed 2 [6, 43] [5, 43] rfl rfl rfl rfl
      (fun _ hc => Option.noConfusion hc)
  exact ⟨rt, h1, h3, h4, h7, h8, h9⟩

/-- A singleton list with a non-qualifying trip generates nothing. -/
theorem generateReturnCourses_singleton_skip (T : Trip) (hq : qualifies T = false) :
    generateReturnCourses [T] = .ok [] := by
  unfold generateReturnCourses generateReturnCoursesAux
  rw [if_neg (by simp [hq])]
  rfl

/-- Claim C5 (amended): a trip with duration 0 and no return time
generates nothing; on every successful run, exactly one return course is
generated per qualifying non-return course, and every generated course is
marked as a return trip derived from a qualifying non-return source, so
generated return trips are never re-expanded. -/
theorem generateReturnCourses_expansion :
    (∀ T : Trip, T.duration = some 0 → T.returnTime = none →
      generateReturnCourses [T] = .ok [])
    ∧ (∀ courses rts, generateReturnCourses courses = .ok rts →
        rts.length = (courses.filter qualifies).length ∧
        ∀ rt ∈ rts, rt.isReturnTrip = true ∧
          ∃ c ∈ courses, c.isReturnTrip = false ∧
            (hasValidDuration c || hasValidReturnTime c) = true ∧
            rt.originalCourseId = some c.id)
    ∧ (∀ R : Trip, R.isReturnTrip = true → generateReturnCourses [R] = .ok []) := by
  refine ⟨?_, ?_, ?_⟩
  · intro T h1 h2
    apply generateReturnCourses_singleton_skip
    unfold qualifies hasValidDuration hasValidReturnTime truthyS
    rw [h1, h2]
    simp
  · intro courses rts h
    obtain ⟨hlen, hmem⟩ := generateReturnCoursesAux_spec courses [] _ rts h
    refine ⟨by simpa using hlen, ?_⟩
    intro rt hrt
    rcases hmem rt hrt with habs | ⟨h1, c, hc, hq, hid⟩
    · cases habs
    · have hq2 : c.isReturnTrip = false ∧
          (hasValidDuration c || hasValidReturnTime c) = true := by
        simpa [qualifies] using hq
      exact ⟨h1, c, hc, hq2.1, hq2.2, hid⟩
  · intro R h
    apply generateReturnCourses_singleton_skip
    simp [qualifies, h]

/-- Claim C5 counterexample: a qualifying trip (positive duration) with
no appointment time makes generateReturnCourses throw instead of yielding
exactly one return trip. -/
theorem generateReturnCourses_missing_appointment :
    qualifies ({ id := 3, patient := "C", duration := some 20 } : Trip) = true ∧
    generateReturnCourses [({ id := 3, patient := "C", duration := some 20 } : Trip)] =
      Except.error "TypeError: split of undefined" :=
  ⟨rfl, rfl⟩

theorem generateReturnCourses_expansion_witness :
    generateReturnCourses [({ duration := some 0 } : Trip)] = Except.ok [] ∧
    generateReturnCourses [({ isReturnTrip := true, duration := some 45 } : Trip)] =
      Except.ok [] ∧
    (([({ duration := some 0 } : Trip)]).filter qualifies).length = 0 := by
  have h1 := generateReturnCourses_expansion.1 ({ duration := some 0 } : Trip) rfl rfl
  have h3 := generateReturnCourses_expansion.2.2
    ({ isReturnTrip := true, duration := some 45 } : Trip) rfl
  have h2 := (generateReturnCourses_expansion.2.1 _ _ h1).1
  exact ⟨h1, h3, by simpa using h2.symm⟩

end ReturnCourses

/-! ## The advanced optimization module

Embedding of the scoring model, the single-trip assignment resolver, the
conflict resolver and the multi-trip batch optimizer. -/

namespace Adv

/-- A geographic coordinate pair. -/
structure Coords where
  lat : Rat
  lng : Rat
deriving DecidableEq, Repr

/-- The Haversine distance: floating-point trigonometry in the source,
modelled as an arbitrary function so that every theorem holds for the
concrete implementation as a special case. -/
abbrev DistFn := Coords → Coords → Rat

/-- Contiguous-substring test on character lists. -/
def infixCheck (key : List Char) : List Char → Bool
  | [] => key.isEmpty
  | x :: rest => key.isPrefixOf (x :: rest) || infixCheck key rest

/-- normalizedAddress.includes(key). -/
def strIncludes (s key : String) : Bool := infixCheck key.data s.data

/-- The mock geocoding table of the source. -/
def mockCoordinates : List (String × Coords) := [
  ("hyères", ⟨43.1205, 6.1286⟩),
  ("toulon", ⟨43.1242, 5.9282⟩),
  ("la seyne-sur-mer", ⟨43.1042, 5.8785⟩),
  ("six-fours-les-plages", ⟨43.0939, 5.8372⟩),
  ("ollioules", ⟨43.1395, 5.8475⟩),
  ("sanary-sur-mer", ⟨43.1196, 5.7998⟩),
  ("bandol", ⟨43.1356, 5.7531⟩),
  ("le pradet", ⟨43.0817, 6.0269⟩),
  ("carqueiranne", ⟨43.0947, 6.0783⟩),
  ("carpentras", ⟨44.0550, 5.0481⟩),
  ("carpentras centre", ⟨44.0550, 5.0481⟩),
  ("avignon", ⟨43.9493, 4.8055⟩),
  ("avignon centre", ⟨43.9493, 4.8055⟩),
  ("monteux", ⟨44.0333, 5.0067⟩),
  ("pernes-les-fontaines", ⟨44.0061, 5.0572⟩),
  ("l\x27isle-sur-la-sorgue", ⟨43.9186, 5.0506⟩),
  ("vedène", ⟨44.0000, 4.9000⟩),
  ("sarrians", ⟨44.0833, 4.9667⟩),
  ("aubignan", ⟨44.0833, 5.0333⟩),
  ("saint-didier", ⟨44.0167, 5.1000⟩),
  ("mazan", ⟨44.0667, 5.1167⟩),
  ("mormoiron", ⟨44.0667, 5.1833⟩),
  ("entraigues-sur-la-sorgue", ⟨44.0000, 4.9167⟩),
  ("sorgues", ⟨44.0167, 4.8667⟩),
  ("le thor", ⟨43.9333, 5.0000⟩),
  ("châteauneuf-du-pape", ⟨44.0556, 4.8306⟩),
  ("hôpital", ⟨43.9493, 4.8055⟩),
  ("chu", ⟨43.9493, 4.8055⟩),
  ("clinique", ⟨43.9493, 4.8055⟩),
  ("ehpad", ⟨43.9493, 4.8055⟩),
  ("centre hospitalier", ⟨43.9493, 4.8055⟩),
  ("polyclinique", ⟨43.9493, 4.8055⟩),
  ("default", ⟨43.1205, 6.1286⟩)]

/-- geocodeAddress(address): lowercase the address, find the first table
key it contains, fall back to the default location.  A missing address
throws: toLowerCase is called on undefined. -/
def geocodeAddress (address : Option String) : Except String Coords :=
  match address with
  | none => .error "TypeError: toLowerCase of undefined"
  | some a =>
    match mockCoordinates.find? (fun kv => strIncludes a.toLower kv.1) with
    | some kv => .ok kv.2
    | none => .ok ⟨43.1205, 6.1286⟩

/-- parseInt: leading decimal digits of a string, NaN when there are none. -/
def jsParseIntChars (l : List Char) : Option Int :=
  let digits := l.takeWhile Char.isDigit
  if digits.isEmpty then none else some (Int.ofNat (digitsVal digits))

/-- getTimeOfDay(timeStr): the rush-hour category of the hour component. -/
def getTimeOfDay (timeStr : String) : String :=
  match jsParseIntChars ((splitOnChar (Char.ofNat 58) timeStr.data).headD []) with
  | none => "night"
  | some h =>
    if 7 ≤ h ∧ h < 9 then "morning"
    else if 9 ≤ h ∧ h < 17 then "afternoon"
    else if 17 ≤ h ∧ h < 20 then "evening"
    else "night"

/-- estimateTravelTime(distance, timeOfDay, roadType): fixed category
speeds scaled by a rush-hour multiplier; an unknown road type makes the
speed undefined and the result NaN. -/
def estimateTravelTime (distance : Rat) (timeOfDay roadType : String) : Option Int :=
  let baseSpeed : Option Rat :=
    if roadType = "urban" then some 25
    else if roadType = "highway" then some 80
    else if roadType = "mixed" then some 40
    else none
  let trafficMultiplier : Rat :=
    if timeOfDay = "morning" then 13/10
    else if timeOfDay = "afternoon" then 1
    else if timeOfDay = "evening" then 14/10
    else if timeOfDay = "night" then 8/10
    else 1
  match baseSpeed with
  | none => none
  | some bs => some (jsRound (distance / (bs * trafficMultiplier) * 60))

/-- convertTimeToMinutes(timeStr): 540 for a falsy argument, otherwise
split and parse (NaN for garbage). -/
def convertTimeToMinutes (timeStr : Option String) : Option Int :=
  match timeStr with
  | none => some 540
  | some t => if t = "" then some 540 else parseHM t

/-- trip.pickupTime || trip.time || "09:00", always a non-empty string. -/
def tripTimeKey (trip : Trip) : String :=
  (jsOrS (jsOrS trip.pickupTime trip.time) (some "09:00")).getD "09:00"

/-- The candidate time of a trip in minutes (NaN for garbage strings). -/
def tripMinutesOf (trip : Trip) : Option Int := parseHM (tripTimeKey trip)

/-- A detected time conflict. -/
structure Conflict where
  type : String
  conflictingTrip : Trip
  timeDifference : Int
  severity : String
deriving DecidableEq, Repr

/-- detectConflicts(trip, existingTrips): a conflict for every existing
trip within 30 minutes; severity high under 15 minutes. -/
def detectConflicts (trip : Trip) (existingTrips : List Trip) : List Conflict :=
  let tripMinutes := tripMinutesOf trip
  existingTrips.filterMap (fun existingTrip =>
    match tripMinutes, tripMinutesOf existingTrip with
    | some a, some b =>
      let timeDiff : Int := ((a - b).natAbs : Nat)
      if timeDiff < 30 then
        some { type := "time_overlap", conflictingTrip := existingTrip,
               timeDifference := timeDiff,
               severity := if timeDiff < 15 then "high" else "medium" }
      else none
    | _, _ => none)

/-- calculateTimeSlotScore(trip, vehicle, existingTrips): 100, 60, 30 or
10 according to the number of existing trips within 30 minutes. -/
def calculateTimeSlotScore (trip : Trip) (_vehicle : Vehicle)
    (existingTrips : List Trip) : Int :=
  let tripMinutes := tripMinutesOf trip
  let conflicts := existingTrips.filter (fun e =>
    match tripMinutes, tripMinutesOf e with
    | some a, some b => (a - b).natAbs < 30
    | _, _ => false)
  if conflicts.length = 0 then 100
  else if conflicts.length = 1 then 60
  else if conflicts.length = 2 then 30
  else 10

/-- getVehicleTypeScore(requiredType, vehicleType): 100 on an exact
match, otherwise the asymmetric compatibility matrix with default 30. -/
def getVehicleTypeScore (requiredType vehicleType : Option String) : Int :=
  if requiredType = vehicleType then 100
  else
    match requiredType, vehicleType with
    | some "Ambulance", some "VSL" => 60
    | some "Ambulance", some "Taxi" => 20
    | some "VSL", some "Ambulance" => 90
    | some "VSL", some "Taxi" => 70
    | some "Taxi", some "Ambulance" => 85
    | some "Taxi", some "VSL" => 80
    | _, _ => 30

/-- getPriorityScore(priority), defaulting to 60. -/
def getPriorityScore (priority : Option String) : Int :=
  match priority with
  | some "urgent" => 100
  | some "high" => 85
  | some "normal" => 60
  | some "low" => 40
  | _ => 60

/-- calculateDistanceScore(totalDistance): the monotone step function. -/
def calculateDistanceScore (totalDistance : Rat) : Int :=
  if totalDistance ≤ 10 then 100
  else if totalDistance ≤ 20 then 80
  else if totalDistance ≤ 40 then 60
  else if totalDistance ≤ 60 then 40
  else 20

/-- calculateEstimatedArrival(startTime, travelMinutes). -/
def calculateEstimatedArrival (startTime : Option String) (travelMinutes : Option Int) :
    Option String :=
  match startTime with
  | none => none
  | some t =>
    if t = "" then none
    else
      match convertTimeToMinutes (some t), travelMinutes with
      | some s, some m =>
        some (fmt2 (((s + m).fdiv 60).tmod 24) ++ ":" ++ fmt2 ((s + m).tmod 60))
      | _, _ => some "NaN:NaN"

/-- calculateFuelCost(distance) at 0.15 euro per km. -/
def calculateFuelCost (distance : Rat) : Rat := roundTo2 (distance * (15/100))

/-- The detail record of a successful scoring run. -/
structure OptDetailsOk where
  vehicleTypeScore : Int
  timeSlotScore : Int
  distanceScore : Int
  priorityScore : Int
  distanceToPickup : Rat
  tripDistance : Rat
  totalDistance : Rat
  timeToPickup : Option Int
  tripDuration : Option Int
  totalTime : Option Int
  estimatedArrival : Option String
  fuelCost : Rat
  conflicts : List Conflict
deriving DecidableEq, Repr

/-- The details field: a full record on success, an error note on the
caught-error path (which carries no conflicts array). -/
inductive OptDetails where
  | ok (d : OptDetailsOk)
  | err (msg : String)
deriving DecidableEq, Repr

/-- Reading details.conflicts: undefined on the error record. -/
def OptDetails.conflictsField : OptDetails → Option (List Conflict)
  | .ok d => some d.conflicts
  | .err _ => none

/-- Reading details.tripDuration: undefined on the error record. -/
def OptDetails.tripDurationField : OptDetails → Option Int
  | .ok d => d.tripDuration
  | .err _ => none

/-- Reading details.estimatedArrival: undefined on the error record. -/
def OptDetails.estimatedArrivalField : OptDetails → Option String
  | .ok d => d.estimatedArrival
  | .err _ => none

/-- Reading details.fuelCost: undefined on the error record. -/
def OptDetails.fuelCostField : OptDetails → Option Rat
  | .ok d => some d.fuelCost
  | .err _ => none

/-- Reading details.totalDistance: undefined on the error record. -/
def OptDetails.totalDistanceField : OptDetails → Option Rat
  | .ok d => some d.totalDistance
  | .err _ => none

/-- Reading details.totalTime: undefined on the error record. -/
def OptDetails.totalTimeField : OptDetails → Option Int
  | .ok d => d.totalTime
  | .err _ => none

structure OptScore where
  score : Int
  details : OptDetails
deriving DecidableEq, Repr

/-- calculateOptimizationScore(trip, vehicle, existingTrips): geocode the
three locations, combine the four sub-scores with the fixed weights
0.30, 0.25, 0.25 and 0.20, and round; any thrown error is caught and
converted to a zero score with an error detail. -/
def calculateOptimizationScore (dist : DistFn) (trip : Trip) (vehicle : Vehicle)
    (existingTrips : List Trip) : OptScore :=
  match geocodeAddress trip.pickup with
  | .error _ => { score := 0, details := .err "Failed to calculate route optimization" }
  | .ok pickupCoords =>
    match geocodeAddress trip.destination with
    | .error _ => { score := 0, details := .err "Failed to calculate route optimization" }
    | .ok destinationCoords =>
      match geocodeAddress (jsOrS vehicle.currentLocation (some "hyères")) with
      | .error _ => { score := 0, details := .err "Failed to calculate route optimization" }
      | .ok vehicleCoords =>
        let distanceToPickup := dist vehicleCoords pickupCoords
        let tripDistance := dist pickupCoords destinationCoords
        let totalDistance := distanceToPickup + tripDistance
        let tripTime := tripTimeKey trip
        let timeToPickup := estimateTravelTime distanceToPickup (getTimeOfDay tripTime) "mixed"
        let tripDuration := estimateTravelTime tripDistance (getTimeOfDay tripTime) "mixed"
        let totalTime :=
          match timeToPickup, tripDuration with
          | some a, some b => some (a + b)
          | _, _ => none
        let vehicleTypeScore := getVehicleTypeScore trip.vehicleType vehicle.type
        let timeSlotScore := calculateTimeSlotScore trip vehicle existingTrips
        let distanceScore := calculateDistanceScore totalDistance
        let priorityScore := getPriorityScore trip.priority
        let finalScore : Rat :=
          (vehicleTypeScore : Rat) * (3/10) + (timeSlotScore : Rat) * (1/4) +
          (distanceScore : Rat) * (1/4) + (priorityScore : Rat) * (1/5)
        { score := jsRound finalScore
          details := .ok {
            vehicleTypeScore := vehicleTypeScore
            timeSlotScore := timeSlotScore
            distanceScore := distanceScore
            priorityScore := priorityScore
            distanceToPickup := roundTo1 distanceToPickup
            tripDistance := roundTo1 tripDistance
            totalDistance := roundTo1 totalDistance
            timeToPickup := timeToPickup
            tripDuration := tripDuration
            totalTime := totalTime
            estimatedArrival := calculateEstimatedArrival (some tripTime) timeToPickup
            fuelCost := calculateFuelCost totalDistance
            conflicts := detectConflicts trip existingTrips } }

/-- The cross-type compatibility multiplier table with default 0.3. -/
def crossTypeCompat (t v : Option String) : Rat :=
  match t, v with
  | some "Ambulance", some "VSL" => 8/10
  | some "Ambulance", some "Taxi" => 4/10
  | some "VSL", some "Ambulance" => 9/10
  | some "VSL", some "Taxi" => 7/10
  | some "Taxi", some "Ambulance" => 6/10
  | some "Taxi", some "VSL" => 8/10
  | _, _ => 3/10

/-- The first two blocks of calculateEnhancedCompatibilityScore: +10 on
an exact type match, else scale by the cross-type multiplier with floor
20. -/
def typeAdjust (t v : Option String) (baseScore : Int) : Rat :=
  let e1 : Rat := if t = v then (baseScore : Rat) + 10 else (baseScore : Rat)
  if t ≠ v then max (e1 * crossTypeCompat t v) 20 else e1

/-- The priority boost block: +15 urgent, +8 high. -/
def priorityBoostStep (priority : Option String) (e : Rat) : Rat :=
  if priority = some "urgent" then e + 15
  else if priority = some "high" then e + 8
  else e

/-- The busy-vehicle block: multiply by 0.8 with floor 25. -/
def busyFloorStep (status : Option String) (e : Rat) : Rat :=
  if status = some "busy" then max (e * (8/10)) 25 else e

/-- The availability block: floor 15 for available vehicles. -/
def availFloorStep (status : Option String) (e : Rat) : Rat :=
  if status = some "available" then max e 15 else e

/-- calculateEnhancedCompatibilityScore(trip, vehicle, baseScore): the
four successive reassignments of the source, then Math.round. -/
def calculateEnhancedCompatibilityScore (trip : Trip) (vehicle : Vehicle)
    (baseScore : Int) : Int :=
  jsRound (availFloorStep vehicle.status (busyFloorStep vehicle.status
    (priorityBoostStep trip.priority
      (typeAdjust trip.vehicleType vehicle.type baseScore))))

structure CompatibilityDetails where
  exactTypeMatch : Bool
  typeCompatibility : Int
  priorityBoost : Int
  statusPenalty : Int
  availabilityBonus : Int
deriving DecidableEq, Repr

def getCompatibilityDetails (trip : Trip) (vehicle : Vehicle) : CompatibilityDetails :=
  { exactTypeMatch := trip.vehicleType = vehicle.type
    typeCompatibility := getVehicleTypeScore trip.vehicleType vehicle.type
    priorityBoost :=
      if trip.priority = some "urgent" then 15
      else if trip.priority = some "high" then 8 else 0
    statusPenalty := if vehicle.status = some "busy" then 20 else 0
    availabilityBonus := if vehicle.status = some "available" then 10 else 0 }

/-- One per-vehicle evaluation; the nested optimization object of the
source is flattened into score (the enhanced score), originalScore and
details. -/
structure Evaluation where
  vehicle : Vehicle
  score : Int
  originalScore : Int
  details : OptDetails
  isAvailable : Bool
  isBusy : Bool
  compatibilityDetails : CompatibilityDetails
deriving DecidableEq, Repr

/-- The evaluation loop body.  (The try/catch of the source is
unreachable here: the embedded scoring function is total, so the
minimal-score fallback branch never runs.) -/
def evaluateVehicle (dist : DistFn) (trip : Trip) (vehicle : Vehicle) : Evaluation :=
  let optimization := calculateOptimizationScore dist trip vehicle (vehicle.trips.getD [])
  { vehicle := vehicle
    score := calculateEnhancedCompatibilityScore trip vehicle optimization.score
    originalScore := optimization.score
    details := optimization.details
    isAvailable := vehicle.status = some "available"
    isBusy := vehicle.status = some "busy"
    compatibilityDetails := getCompatibilityDetails trip vehicle }

/-- The comparator of the evaluation sort as a keep-before test: a stays
before b when the comparator value is non-positive.  (The array sort of
the source is engine-dependent because the comparator is inconsistent;
we model a stable merge sort, and no claim depends on the exact order.) -/
def evalLE (a b : Evaluation) : Bool :=
  let scoreDiff : Int := b.score - a.score
  if scoreDiff.natAbs < 5 ∧ a.isAvailable ≠ b.isAvailable then a.isAvailable
  else scoreDiff ≤ 0

/-- vehicle.status !== maintenance. -/
def notMaintenance (v : Vehicle) : Bool := v.status ≠ some "maintenance"

structure AssignmentResult where
  success : Bool
  message : String
  recommended : Option Evaluation
  alternatives : List Evaluation
  lowScore : Bool
  forceAssigned : Bool
  forced : Bool
  warning : Option String
  debugInfo : Option (List (String × Int × Option String))
deriving DecidableEq, Repr

/-- findBestVehicleAssignment(trip, vehicles): filter out maintenance
vehicles, evaluate and sort the rest, accept the best above the
5-point floor, force-assign otherwise; fail only with no candidates. -/
def findBestVehicleAssignment (dist : DistFn) (trip : Trip) (vehicles : List Vehicle) :
    AssignmentResult :=
  if (vehicles.filter notMaintenance).isEmpty then
    { success := false
      message := "Aucun véhicule disponible (tous en maintenance)"
      recommended := none, alternatives := [], lowScore := false
      forceAssigned := false, forced := false, warning := none, debugInfo := none }
  else
    match ((vehicles.filter notMaintenance).map (evaluateVehicle dist trip)).mergeSort evalLE with
    | [] =>
      -- unreachable tail branch of the source, kept for shape
      { success := false
        message := "Impossible d assigner ce trajet"
        recommended := none, alternatives := [], lowScore := false
        forceAssigned := false, forced := false, warning := none
        debugInfo := some (((vehicles.filter notMaintenance).map (evaluateVehicle dist trip)).map
          (fun e => (e.vehicle.name, e.score, e.vehicle.status))) }
    | bestAssignment :: rest =>
      if bestAssignment.score > 5 then
        { success := true
          message := "Véhicule assigné: " ++ bestAssignment.vehicle.name
          recommended := some bestAssignment
          alternatives := rest.take 4
          lowScore := bestAssignment.score < 50
          forceAssigned := bestAssignment.score < 30
          forced := false, warning := none, debugInfo := none }
      else
        { success := true
          message := "Assignation forcée: " ++ bestAssignment.vehicle.name
          recommended := some bestAssignment
          alternatives := rest.take 4
          lowScore := false, forceAssigned := false
          forced := true
          warning := some "Cette assignation pourrait ne pas être optimale"
          debugInfo := none }

/-! ### Rounding bounds -/

theorem jsRound_ge (n : Int) (q : Rat) (h : (n : Rat) ≤ q) : n ≤ jsRound q := by
  unfold jsRound
  exact Int.le_floor.mpr (by linarith)

theorem jsRound_le (n : Int) (q : Rat) (h : q ≤ (n : Rat)) : jsRound q ≤ n := by
  unfold jsRound
  have h2 : ⌊q + 1/2⌋ < n + 1 := Int.floor_lt.mpr (by push_cast; linarith)
  omega

/-! ### Sub-score bounds -/

theorem getVehicleTypeScore_bounds (r v : Option String) :
    0 ≤ getVehicleTypeScore r v ∧ getVehicleTypeScore r v ≤ 100 := by
  unfold getVehicleTypeScore
  split
  · norm_num
  · split <;> norm_num

theorem getPriorityScore_bounds (p : Option String) :
    0 ≤ getPriorityScore p ∧ getPriorityScore p ≤ 100 := by
  unfold getPriorityScore
  split <;> norm_num

theorem calculateTimeSlotScore_bounds (t : Trip) (v : Vehicle) (e : List Trip) :
    0 ≤ calculateTimeSlotScore t v e ∧ calculateTimeSlotScore t v e ≤ 100 := by
  simp only [calculateTimeSlotScore]
  split_ifs <;> norm_num

theorem calculateDistanceScore_bounds (d : Rat) :
    0 ≤ calculateDistanceScore d ∧ calculateDistanceScore d ≤ 100 := by
  unfold calculateDistanceScore
  split_ifs <;> norm_num

/-- Claim C9: calculateDistanceScore is the documented step function, is
antitone, and never returns zero. -/
theorem calculateDistanceScore_spec :
    (∀ d : Rat,
      (d ≤ 10 → calculateDistanceScore d = 100) ∧
      (10 < d → d ≤ 20 → calculateDistanceScore d = 80) ∧
      (20 < d → d ≤ 40 → calculateDistanceScore d = 60) ∧
      (40 < d → d ≤ 60 → calculateDistanceScore d = 40) ∧
      (60 < d → calculateDistanceScore d = 20)) ∧
    (∀ d1 d2 : Rat, d1 ≤ d2 → calculateDistanceScore d2 ≤ calculateDistanceScore d1) ∧
    (∀ d : Rat, calculateDistanceScore d ≠ 0) := by
  refine ⟨?_, ?_, ?_⟩
  · intro d
    unfold calculateDistanceScore
    refine ⟨fun h1 => ?_, fun h1 h2 => ?_, fun h1 h2 => ?_, fun h1 h2 => ?_, fun h1 => ?_⟩ <;>
      split_ifs <;> linarith
  · intro d1 d2 h
    unfold calculateDistanceScore
    split_ifs <;> linarith
  · intro d
    unfold calculateDistanceScore
    split_ifs <;> norm_num

theorem calculateDistanceScore_spec_witness :
    calculateDistanceScore 5 = 100 ∧ calculateDistanceScore 15 = 80 ∧
    calculateDistanceScore 30 = 60 ∧ calculateDistanceScore 50 = 40 ∧
    calculateDistanceScore 70 = 20 ∧
    calculateDistanceScore 70 ≤ calculateDistanceScore 15 ∧
    calculateDistanceScore 70 ≠ 0 := by
  obtain ⟨hp, hm, hz⟩ := calculateDistanceScore_spec
  exact ⟨(hp 5).1 (by norm_num), (hp 15).2.1 (by norm_num) (by norm_num),
    (hp 30).2.2.1 (by norm_num) (by norm_num),
    (hp 50).2.2.2.1 (by norm_num) (by norm_num),
    (hp 70).2.2.2.2 (by norm_num), hm 15 70 (by norm_num), hz 70⟩

/-! ### Claim C3: boundedness and shape of the optimization score -/

/-- Geocoding a present address never throws. -/
theorem geocodeAddress_some_ok (s : String) : ∃ c, geocodeAddress (some s) = .ok c := by
  show ∃ c, (match mockCoordinates.find? (fun kv => strIncludes s.toLower kv.1) with
    | some kv => Except.ok kv.2
    | none => Except.ok ⟨43.1205, 6.1286⟩) = Except.ok c
  cases h : mockCoordinates.find? (fun kv => strIncludes s.toLower kv.1) with
  | none => exact ⟨_, rfl⟩
  | some kv => exact ⟨kv.2, rfl⟩

/-- vehicle.currentLocation || "hyères" is always a present string. -/
theorem currentLocation_coalesce (v : Vehicle) :
    ∃ s, jsOrS v.currentLocation (some "hyères") = some s := by
  cases hcl : v.currentLocation with
  | none => exact ⟨"hyères", by simp [jsOrS, hcl]⟩
  | some s =>
    by_cases hs : s = ""
    · exact ⟨"hyères", by simp [jsOrS, hcl, hs]⟩
    · exact ⟨s, by simp [jsOrS, hcl, hs]⟩

/-- The full behavioral characterization of calculateOptimizationScore:
bounds, the weighted-sum form on the success path, and the caught-error
form when an address is missing. -/
theorem calculateOptimizationScore_props (dist : DistFn) (trip : Trip) (vehicle : Vehicle)
    (existingTrips : List Trip) :
    (0 ≤ (calculateOptimizationScore dist trip vehicle existingTrips).score ∧
      (calculateOptimizationScore dist trip vehicle existingTrips).score ≤ 100) ∧
    (trip.pickup ≠ none → trip.destination ≠ none →
      ∃ v t d p dd,
        v = getVehicleTypeScore trip.vehicleType vehicle.type ∧
        t = calculateTimeSlotScore trip vehicle existingTrips ∧
        d = calculateDistanceScore dd ∧
        p = getPriorityScore trip.priority ∧
        0 ≤ v ∧ v ≤ 100 ∧ 0 ≤ t ∧ t ≤ 100 ∧ 0 ≤ d ∧ d ≤ 100 ∧ 0 ≤ p ∧ p ≤ 100 ∧
        (calculateOptimizationScore dist trip vehicle existingTrips).score =
          jsRound ((v : Rat) * (3/10) + (t : Rat) * (1/4) +
            (d : Rat) * (1/4) + (p : Rat) * (1/5))) ∧
    ((trip.pickup = none ∨ trip.destination = none) →
      (calculateOptimizationScore dist trip vehicle existingTrips).score = 0 ∧
      (calculateOptimizationScore dist trip vehicle existingTrips).details =
        .err "Failed to calculate route optimization") := by
  cases hpk : trip.pickup with
  | none =>
    have hres : calculateOptimizationScore dist trip vehicle existingTrips =
        { score := 0, details := .err "Failed to calculate route optimization" } := by
      unfold calculateOptimizationScore geocodeAddress
      rw [hpk]
    refine ⟨by rw [hres]; exact ⟨le_refl 0, by norm_num⟩, ?_, ?_⟩
    · intro hne _
      exact absurd rfl hne
    · intro _
      rw [hres]
      exact ⟨rfl, rfl⟩
  | some ps =>
    obtain ⟨c1, hc1⟩ := geocodeAddress_some_ok ps
    cases hds : trip.destination with
    | none =>
      have hres : calculateOptimizationScore dist trip vehicle existingTrips =
          { score := 0, details := .err "Failed to calculate route optimization" } := by
        unfold calculateOptimizationScore
        rw [hpk, hc1, hds]
        unfold geocodeAddress
        rfl
      refine ⟨by rw [hres]; exact ⟨le_refl 0, by norm_num⟩, ?_, ?_⟩
      · intro _ hne
        exact absurd rfl hne
      · intro _
        rw [hres]
        exact ⟨rfl, rfl⟩
    | some qs =>
      obtain ⟨c2, hc2⟩ := geocodeAddress_some_ok qs
      obtain ⟨cl, hcl⟩ := currentLocation_coalesce vehicle
      obtain ⟨c3, hc3⟩ := geocodeAddress_some_ok cl
      have hres : (calculateOptimizationScore dist trip vehicle existingTrips).score =
          jsRound ((getVehicleTypeScore trip.vehicleType vehicle.type : Rat) * (3/10) +
            (calculateTimeSlotScore trip vehicle existingTrips : Rat) * (1/4) +
            (calculateDistanceScore (dist c3 c1 + dist c1 c2) : Rat) * (1/4) +
            (getPriorityScore trip.priority : Rat) * (1/5)) := by
        unfold calculateOptimizationScore
        rw [hpk, hc1, hds, hc2, hcl, hc3]
      obtain ⟨hv0, hv1⟩ := getVehicleTypeScore_bounds trip.vehicleType vehicle.type
      obtain ⟨ht0, ht1⟩ := calculateTimeSlotScore_bounds trip vehicle existingTrips
      obtain ⟨hd0, hd1⟩ := calculateDistanceScore_bounds (dist c3 c1 + dist c1 c2)
      obtain ⟨hq0, hq1⟩ := getPriorityScore_bounds trip.priority
      have hv0r : (0 : Rat) ≤ (getVehicleTypeScore trip.vehicleType vehicle.type : Rat) := by
        exact_mod_cast hv0
      have hv1r : (getVehicleTypeScore trip.vehicleType vehicle.type : Rat) ≤ 100 := by
        exact_mod_cast hv1
      have ht0r : (0 : Rat) ≤ (calculateTimeSlotScore trip vehicle existingTrips : Rat) := by
        exact_mod_cast ht0
      have ht1r : (calculateTimeSlotScore trip vehicle existingTrips : Rat) ≤ 100 := by
        exact_mod_cast ht1
      have hd0r : (0 : Rat) ≤ (calculateDistanceScore (dist c3 c1 + dist c1 c2) : Rat) := by
        exact_mod_cast hd0
      have hd1r : (calculateDistanceScore (dist c3 c1 + dist c1 c2) : Rat) ≤ 100 := by
        exact_mod_cast hd1
      have hq0r : (0 : Rat) ≤ (getPriorityScore trip.priority : Rat) := by
        exact_mod_cast hq0
      have hq1r : (getPriorityScore trip.priority : Rat) ≤ 100 := by
        exact_mod_cast hq1
      refine ⟨?_, ?_, ?_⟩
      · rw [hres]
        constructor
        · exact jsRound_ge 0 _ (by push_cast; linarith)
        · exact jsRound_le 100 _ (by push_cast; linarith)
      · intro _ _
        exact ⟨_, _, _, _, dist c3 c1 + dist c1 c2, rfl, rfl, rfl, rfl,
          hv0, hv1, ht0, ht1, hd0, hd1, hq0, hq1, hres⟩
      · intro habs
        rcases habs with h | h <;> exact Option.noConfusion h

/-- Claim C3: the score is an integer in 0..100; with both addresses
present it is the rounding of the weighted sum of the four sub-scores,
each themselves in 0..100, with weights 0.30, 0.25, 0.25, 0.20; with a
missing pickup or destination it is exactly 0 with an error detail
instead of a thrown exception. -/
theorem calculateOptimizationScore_spec (dist : DistFn) (trip : Trip) (vehicle : Vehicle)
    (existingTrips : List Trip) :
    (0 ≤ (calculateOptimizationScore dist trip vehicle existingTrips).score ∧
      (calculateOptimizationScore dist trip vehicle existingTrips).score ≤ 100) ∧
    (trip.pickup ≠ none → trip.destination ≠ none →
      ∃ v t d p dd,
        v = getVehicleTypeScore trip.vehicleType vehicle.type ∧
        t = calculateTimeSlotScore trip vehicle existingTrips ∧
        d = calculateDistanceScore dd ∧
        p = getPriorityScore trip.priority ∧
        0 ≤ v ∧ v ≤ 100 ∧ 0 ≤ t ∧ t ≤ 100 ∧ 0 ≤ d ∧ d ≤ 100 ∧ 0 ≤ p ∧ p ≤ 100 ∧
        (calculateOptimizationScore dist trip vehicle existingTrips).score =
          jsRound ((v : Rat) * (3/10) + (t : Rat) * (1/4) +
            (d : Rat) * (1/4) + (p : Rat) * (1/5))) ∧
    ((trip.pickup = none ∨ trip.destination = none) →
      (calculateOptimizationScore dist trip vehicle existingTrips).score = 0 ∧
      (calculateOptimizationScore dist trip vehicle existingTrips).details =
        .err "Failed to calculate route optimization") :=
  calculateOptimizationScore_props dist trip vehicle existingTrips

theorem calculateOptimizationScore_spec_witness :
    (0 ≤ (calculateOptimizationScore (fun _ _ => 0)
        { id := 1, pickup := some "Hyères", destination := some "Toulon",
          vehicleType := some "VSL", priority := some "normal" }
        { id := 1, type := some "VSL", status := some "available" } []).score ∧
      (calculateOptimizationScore (fun _ _ => 0)
        { id := 1, pickup := some "Hyères", destination := some "Toulon",
          vehicleType := some "VSL", priority := some "normal" }
        { id := 1, type := some "VSL", status := some "available" } []).score ≤ 100) ∧
    ((calculateOptimizationScore (fun _ _ => 0)
        { id := 2, pickup := none, destination := some "Toulon" }
        { id := 1, type := some "VSL", status := some "available" } []).score = 0 ∧
      (calculateOptimizationScore (fun _ _ => 0)
        { id := 2, pickup := none, destination := some "Toulon" }
        { id := 1, type := some "VSL", status := some "available" } []).details =
        .err "Failed to calculate route optimization") := by
  refine ⟨(calculateOptimizationScore_spec (fun _ _ => 0) _ _ _).1, ?_⟩
  exact (calculateOptimizationScore_spec (fun _ _ => 0)
    { id := 2, pickup := none, destination := some "Toulon" }
    { id := 1, type := some "VSL", status := some "available" } []).2.2 (Or.inl rfl)

/-! ### Claim C2: success exactly characterized by maintenance status -/

/-- Claim C2: findBestVehicleAssignment fails exactly when every vehicle
is in maintenance; with at least one non-maintenance vehicle it succeeds
with a recommended vehicle. -/
theorem findBestVehicleAssignment_success_iff (dist : DistFn) (trip : Trip)
    (vehicles : List Vehicle) :
    ((findBestVehicleAssignment dist trip vehicles).success = false ↔
      ∀ v ∈ vehicles, v.status = some "maintenance") ∧
    ((∃ v ∈ vehicles, v.status ≠ some "maintenance") →
      (findBestVehicleAssignment dist trip vehicles).success = true ∧
      ∃ e, (findBestVehicleAssignment dist trip vehicles).recommended = some e) := by
  have hchar : (vehicles.filter notMaintenance = []) ↔
      ∀ v ∈ vehicles, v.status = some "maintenance" := by
    rw [List.filter_eq_nil_iff]
    constructor
    · intro h v hv
      have := h v hv
      simpa [notMaintenance] using this
    · intro h v hv
      simp [notMaintenance, h v hv]
  by_cases hcand : vehicles.filter notMaintenance = []
  · have hres : findBestVehicleAssignment dist trip vehicles =
        { success := false
          message := "Aucun véhicule disponible (tous en maintenance)"
          recommended := none, alternatives := [], lowScore := false
          forceAssigned := false, forced := false, warning := none,
          debugInfo := none } := by
      unfold findBestVehicleAssignment
      rw [hcand]
      rfl
    refine ⟨?_, ?_⟩
    · rw [hres]
      simpa using hchar.mp hcand
    · intro ⟨v, hv, hvs⟩
      exact absurd (hchar.mp hcand v hv) hvs
  · cases hs : (vehicles.filter notMaintenance).map (evaluateVehicle dist trip)
        |>.mergeSort evalLE with
    | nil =>
      exfalso
      have hlen := congrArg List.length hs
      rw [List.length_mergeSort, List.length_map] at hlen
      exact hcand (List.eq_nil_of_length_eq_zero hlen)
    | cons best rest =>
      have hie : (vehicles.filter notMaintenance).isEmpty = false := by
        simpa [List.isEmpty_iff] using hcand
      have hres : findBestVehicleAssignment dist trip vehicles =
          if best.score > 5 then
            { success := true
              message := "Véhicule assigné: " ++ best.vehicle.name
              recommended := some best
              alternatives := rest.take 4
              lowScore := best.score < 50
              forceAssigned := best.score < 30
              forced := false, warning := none, debugInfo := none }
          else
            { success := true
              message := "Assignation forcée: " ++ best.vehicle.name
              recommended := some best
              alternatives := rest.take 4
              lowScore := false, forceAssigned := false
              forced := true
              warning := some "Cette assignation pourrait ne pas être optimale"
              debugInfo := none } := by
        unfold findBestVehicleAssignment
        rw [hie, hs]
        rfl
      constructor
      · rw [hres]
        constructor
        · intro habs
          split at habs <;> cases habs
        · intro hall
          exact absurd (hchar.mpr hall) hcand
      · intro _
        rw [hres]
        split
        · exact ⟨rfl, best, rfl⟩
        · exact ⟨rfl, best, rfl⟩

theorem findBestVehicleAssignment_success_iff_witness :
    (findBestVehicleAssignment (fun _ _ => 0) { id := 1 }
      [{ id := 1, name := "V1", type := some "VSL", status := some "available" }]).success
      = true := by
  exact ((findBestVehicleAssignment_success_iff (fun _ _ => 0) { id := 1 }
    [{ id := 1, name := "V1", type := some "VSL", status := some "available" }]).2
    ⟨_, List.mem_singleton.mpr rfl, by simp⟩).1

/-! ### Claim C10: the enhanced-score floor makes forcing unreachable -/

/-- The enhanced compatibility score never drops below 10 for a
non-negative base score. -/
theorem calculateEnhancedCompatibilityScore_ge10 (trip : Trip) (vehicle : Vehicle)
    (base : Int) (h0 : 0 ≤ base) :
    10 ≤ calculateEnhancedCompatibilityScore trip vehicle base := by
  unfold calculateEnhancedCompatibilityScore
  apply jsRound_ge
  have hb : (0 : Rat) ≤ (base : Rat) := by exact_mod_cast h0
  have h1 : (10 : Rat) ≤ typeAdjust trip.vehicleType vehicle.type base := by
    simp only [typeAdjust]
    by_cases h : trip.vehicleType = vehicle.type
    · rw [if_neg (by simp [h]), if_pos h]
      linarith
    · rw [if_pos h, if_neg h]
      exact le_trans (by norm_num) (le_max_right _ _)
  have h2 : (10 : Rat) ≤ priorityBoostStep trip.priority
      (typeAdjust trip.vehicleType vehicle.type base) := by
    unfold priorityBoostStep
    split_ifs <;> linarith
  have h3 : (10 : Rat) ≤ busyFloorStep vehicle.status (priorityBoostStep trip.priority
      (typeAdjust trip.vehicleType vehicle.type base)) := by
    unfold busyFloorStep
    split_ifs
    · exact le_trans (by norm_num) (le_max_right _ _)
    · exact h2
  unfold availFloorStep
  split_ifs
  · exact le_trans h3 (le_max_left _ _)
  · exact h3

/-- Claim C10: the enhanced compatibility score is at least 10 for every
base score in 0..100, and consequently with any non-maintenance vehicle
available the top candidate clears the 5-point floor, so the force-assign
branch is unreachable and every success is a normal acceptance. -/
theorem enhancedScore_floor_no_force :
    (∀ (trip : Trip) (vehicle : Vehicle) (base : Int), 0 ≤ base → base ≤ 100 →
      10 ≤ calculateEnhancedCompatibilityScore trip vehicle base) ∧
    (∀ (dist : DistFn) (trip : Trip) (vehicles : List Vehicle),
      (∃ v ∈ vehicles, v.status ≠ some "maintenance") →
      (findBestVehicleAssignment dist trip vehicles).forced = false ∧
      (findBestVehicleAssignment dist trip vehicles).success = true) := by
  constructor
  · intro trip vehicle base h0 _
    exact calculateEnhancedCompatibilityScore_ge10 trip vehicle base h0
  · intro dist trip vehicles hex
    have hcand : vehicles.filter notMaintenance ≠ [] := by
      obtain ⟨v, hv, hvs⟩ := hex
      intro hnil
      rw [List.filter_eq_nil_iff] at hnil
      exact hnil v hv (by simp [notMaintenance, hvs])
    cases hs : ((vehicles.filter notMaintenance).map (evaluateVehicle dist trip)).mergeSort
        evalLE with
    | nil =>
      exfalso
      have hlen := congrArg List.length hs
      rw [List.length_mergeSort, List.length_map] at hlen
      exact hcand (List.eq_nil_of_length_eq_zero hlen)
    | cons best rest =>
      have hbm : best ∈ ((vehicles.filter notMaintenance).map
          (evaluateVehicle dist trip)).mergeSort evalLE := by
        rw [hs]
        exact List.mem_cons_self best rest
      rw [List.mem_mergeSort] at hbm
      obtain ⟨v, _, hv⟩ := List.mem_map.mp hbm
      have hb10 : 10 ≤ best.score := by
        rw [← hv]
        show 10 ≤ (evaluateVehicle dist trip v).score
        simp only [evaluateVehicle]
        exact calculateEnhancedCompatibilityScore_ge10 trip v _
          (calculateOptimizationScore_props dist trip v ((v.trips).getD [])).1.1
      have hie : (vehicles.filter notMaintenance).isEmpty = false := by
        simpa [List.isEmpty_iff] using hcand
      have hres : findBestVehicleAssignment dist trip vehicles =
          { success := true
            message := "Véhicule assigné: " ++ best.vehicle.name
            recommended := some best
            alternatives := rest.take 4
            lowScore := best.score < 50
            forceAssigned := best.score < 30
            forced := false, warning := none, debugInfo := none } := by
        unfold findBestVehicleAssignment
        rw [hie, hs]
        show (if best.score > 5 then _ else _) = _
        rw [if_pos (by omega : best.score > 5)]
      rw [hres]
      exact ⟨rfl, rfl⟩

theorem enhancedScore_floor_no_force_witness :
    10 ≤ calculateEnhancedCompatibilityScore { id := 1 } { id := 1 } 0 ∧
    (findBestVehicleAssignment (fun _ _ => 0) { id := 1 }
      [{ id := 1, name := "V1", type := some "VSL", status := some "available" }]).forced
      = false := by
  refine ⟨enhancedScore_floor_no_force.1 { id := 1 } { id := 1 } 0 (by norm_num) (by norm_num), ?_⟩
  exact (enhancedScore_floor_no_force.2 (fun _ _ => 0) { id := 1 }
    [{ id := 1, name := "V1", type := some "VSL", status := some "available" }]
    ⟨_, List.mem_singleton.mpr rfl, by simp⟩).1

end Adv

/-! ## The fallback VRP solver

Embedding of the pure-local fallback of the provider orchestration:
time-window bounds, the buffered interval-overlap conflict gate, the
greedy assignment loop and the 2-opt improvement pass (whose mock route
distance consumes Math.random, modelled as an explicit stream). -/

namespace Fallback

structure TWConfig where
  appointmentBufferBefore : Int
  appointmentBufferAfter : Int
  returnTripDuration : Int
  bufferBetweenAppointments : Int
  bufferBetweenReturns : Int
  bufferMixed : Int
  allowConflictPenalty : Bool
  conflictPenaltyScore : Int
  minAssignmentScore : Int
  workingHoursStart : Int
  workingHoursEnd : Int
deriving DecidableEq, Repr

/-- The default configuration object of fallbackVRPSolver.  The local
default of checkTimeOverlap carries only the three buffers, with these
same values. -/
def defaultTWConfig : TWConfig :=
  { appointmentBufferBefore := 30, appointmentBufferAfter := 30, returnTripDuration := 60,
    bufferBetweenAppointments := 20, bufferBetweenReturns := 10, bufferMixed := 15,
    allowConflictPenalty := true, conflictPenaltyScore := 50, minAssignmentScore := 15,
    workingHoursStart := 6, workingHoursEnd := 22 }

/-- timeToMinutes of the fallback module: 0 for a falsy argument. -/
def timeToMinutes (timeStr : Option String) : Option Int :=
  match timeStr with
  | none => some 0
  | some t => if t = "" then some 0 else parseHM t

structure TimeBounds where
  startTime : Option Int
  endTime : Option Int
  duration : Option Int
  type : String
deriving DecidableEq, Repr

/-- NaN-propagating addition of a constant. -/
def optAdd (a : Option Int) (b : Int) : Option Int := a.map (· + b)

def optSub : Option Int → Option Int → Option Int
  | some x, some y => some (x - y)
  | _, _ => none

/-- Math.max with a constant; NaN propagates. -/
def jsMaxC (c : Int) : Option Int → Option Int
  | none => none
  | some x => some (max c x)

/-- Math.min with a constant; NaN propagates. -/
def jsMinC (c : Int) : Option Int → Option Int
  | none => none
  | some x => some (min c x)

/-- A strict comparison that is false when either side is NaN. -/
def optLtB : Option Int → Option Int → Bool
  | some a, some b => a < b
  | _, _ => false

/-- getTimeBounds(trip): pickup windows for return trips, appointment
windows with travel margins otherwise, clamped to 06:00..22:00. -/
def getTimeBounds (trip : Trip) : Option TimeBounds :=
  if trip.isReturnTrip then
    match truthyS trip.earliestPickupTime with
    | none => none
    | some ept =>
      let s := timeToMinutes (some ept)
      let e := optAdd s 60
      some { startTime := jsMaxC 360 s, endTime := jsMinC 1320 e,
             duration := optSub (jsMinC 1320 e) (jsMaxC 360 s), type := "return" }
  else
    match truthyS trip.appointmentTime with
    | some at2 =>
      let appointmentMinutes := timeToMinutes (some at2)
      let duration := jsOrI trip.duration 60
      let s := optAdd appointmentMinutes (-30)
      let e := optAdd appointmentMinutes (duration + 30)
      some { startTime := jsMaxC 360 s, endTime := jsMinC 1320 e,
             duration := optSub (jsMinC 1320 e) (jsMaxC 360 s), type := "appointment" }
    | none =>
      match truthyS (jsOrS trip.pickupTime trip.time) with
      | some pt =>
        let s := timeToMinutes (some pt)
        let e := optAdd s 90
        some { startTime := jsMaxC 360 s, endTime := jsMinC 1320 e,
               duration := optSub (jsMinC 1320 e) (jsMaxC 360 s), type := "appointment" }
      | none => none

/-- The type-dependent buffer of checkTimeOverlap. -/
def bufferFor (time1 time2 : TimeBounds) (cfg : Option TWConfig) : Int :=
  if time1.type = "appointment" ∧ time2.type = "appointment" then
    (cfg.getD defaultTWConfig).bufferBetweenAppointments
  else if time1.type = "return" ∧ time2.type = "return" then
    (cfg.getD defaultTWConfig).bufferBetweenReturns
  else (cfg.getD defaultTWConfig).bufferMixed

/-- checkTimeOverlap(time1, time2, config): both intervals, extended by
the shared buffer, must strictly cross. -/
def checkTimeOverlap (time1 time2 : TimeBounds) (cfg : Option TWConfig) : Bool :=
  optLtB time1.startTime (optAdd time2.endTime (bufferFor time1 time2 cfg)) &&
  optLtB time2.startTime (optAdd time1.endTime (bufferFor time1 time2 cfg))

structure ConflictCheck where
  hasConflict : Bool
  reason : Option String
  conflictingTrip : Option Trip
deriving DecidableEq, Repr

/-- The scan of checkTimeConflicts over the existing trips. -/
def findOverlap (newTripTime : TimeBounds) (cfg : Option TWConfig) :
    List Trip → ConflictCheck
  | [] => { hasConflict := false, reason := none, conflictingTrip := none }
  | existingTrip :: rest =>
    match getTimeBounds existingTrip with
    | none => findOverlap newTripTime cfg rest
    | some existingTripTime =>
      if checkTimeOverlap newTripTime existingTripTime cfg then
        { hasConflict := true, reason := some "Time overlap",
          conflictingTrip := some existingTrip }
      else findOverlap newTripTime cfg rest

/-- checkTimeConflicts(newTrip, existingTrips, config). -/
def checkTimeConflicts (newTrip : Trip) (existingTrips : List Trip)
    (cfg : Option TWConfig) : ConflictCheck :=
  if existingTrips.isEmpty then
    { hasConflict := false, reason := none, conflictingTrip := none }
  else
    match getTimeBounds newTrip with
    | none =>
      { hasConflict := false, reason := some "New trip has no time constraints",
        conflictingTrip := none }
    | some newTripTime => findOverlap newTripTime cfg existingTrips

/-- getVehicleTypeCompatibility with default 50. -/
def getVehicleTypeCompatibility (requiredType vehicleType : Option String) : Int :=
  match requiredType, vehicleType with
  | some "Ambulance", some "Ambulance" => 100
  | some "Ambulance", some "VSL" => 30
  | some "Ambulance", some "Taxi" => 10
  | some "VSL", some "Ambulance" => 80
  | some "VSL", some "VSL" => 100
  | some "VSL", some "Taxi" => 50
  | some "Taxi", some "Ambulance" => 90
  | some "Taxi", some "VSL" => 80
  | some "Taxi", some "Taxi" => 100
  | _, _ => 50

def getVehicleSkills (vehicle : Vehicle) : List Int :=
  match vehicle.type with
  | some "Ambulance" => [1, 2, 3]
  | some "VSL" => [2, 3]
  | some "Taxi" => [3]
  | _ => []

def getTripRequiredSkills (trip : Trip) : List Int :=
  match trip.vehicleType with
  | some "Ambulance" => [1]
  | some "VSL" => [1, 2]
  | some "Taxi" => [1, 2, 3]
  | _ => [1, 2, 3]

structure RouteStep where
  type : String
  location : Option String
  trip : Trip
  time : Option String
deriving DecidableEq, Repr

/-- One value of the per-vehicle assignment map. -/
structure VAssign where
  vehicle : Vehicle
  trips : List Trip
  totalDistance : Option Rat
  totalDuration : Option Rat
  route : List RouteStep
deriving DecidableEq, Repr

/-- Map.get on the insertion-ordered association list. -/
def alGet (al : List (Int × VAssign)) (k : Int) : Option VAssign :=
  (al.find? (fun p => p.1 = k)).map (fun p => p.2)

/-- Map.set: replace in place, else append. -/
def alSet (al : List (Int × VAssign)) (k : Int) (v : VAssign) : List (Int × VAssign) :=
  if al.any (fun p => p.1 = k) then
    al.map (fun p => if p.1 = k then (k, v) else p)
  else al ++ [(k, v)]

/-- calculateEstimatedArrival of the fallback module. -/
def calculateEstimatedArrivalF (pickupTime : Option String) (additionalMinutes : Int) :
    Option String :=
  match truthyS pickupTime with
  | none => none
  | some t =>
    match parseHM t with
    | some m =>
      some (fmt2 (((m + additionalMinutes).fdiv 60).tmod 24) ++ ":" ++
        fmt2 ((m + additionalMinutes).tmod 60))
    | none => some "NaN:NaN"

structure RouteMetrics where
  additionalDistance : Rat
  additionalDuration : Rat
  estimatedArrival : Option String
deriving DecidableEq, Repr

/-- calculateRouteMetrics: mock base distance and duration scaled by a
utilization penalty; the matrices are received but unused. -/
def calculateRouteMetrics (trip : Trip) (vehicleAssignment : VAssign)
    (_distanceMatrix _durationMatrix : List (List Rat)) : RouteMetrics :=
  { additionalDistance := 10 * (1 + (vehicleAssignment.trips.length : Rat) * (1/10))
    additionalDuration := 30 * (1 + (vehicleAssignment.trips.length : Rat) * (1/10))
    estimatedArrival := calculateEstimatedArrivalF (jsOrS trip.pickupTime trip.time) 30 }

/-- calculateTripAssignmentScore: type 0.5, utilization 0.3, efficiency 0.2. -/
def calculateTripAssignmentScore (trip : Trip) (vehicle : Vehicle)
    (routeMetrics : RouteMetrics) (currentTripCount : Nat) : Rat :=
  (getVehicleTypeCompatibility trip.vehicleType vehicle.type : Rat) * (1/2) +
  (max 0 (100 - (currentTripCount : Rat) * 15)) * (3/10) +
  (max 0 (100 - routeMetrics.additionalDistance * 2)) * (1/5)

/-- The metrics tracked for the best candidate: full route metrics on the
conflict-free path, the literal mock triple on the penalty path (whose
additional distance and duration are undefined when later read). -/
inductive BestMetrics where
  | route (rm : RouteMetrics)
  | penalty (distance duration score : Rat)
deriving DecidableEq, Repr

def BestMetrics.additionalDistanceField : BestMetrics → Option Rat
  | .route rm => some rm.additionalDistance
  | .penalty _ _ _ => none

def BestMetrics.additionalDurationField : BestMetrics → Option Rat
  | .route rm => some rm.additionalDuration
  | .penalty _ _ _ => none

def BestMetrics.estimatedArrivalField : BestMetrics → Option String
  | .route rm => rm.estimatedArrival
  | .penalty _ _ _ => none

/-- The result shapes of findBestVehicleForTrip. -/
inductive BestAssignmentResult where
  | success (vehicleId : Int) (score : Int)
      (additionalDistance additionalDuration : Option Rat)
      (estimatedArrival : Option String)
  | failure (reason : String)
deriving DecidableEq, Repr

/-- The loop body of findBestVehicleForTrip: skip incompatible types and
skills, consider penalized assignment on a time conflict when allowed,
otherwise score the conflict-free candidate. -/
def fbLoopStep (trip : Trip) (dm durm : List (List Rat)) (cfg : Option TWConfig)
    (st : Rat × Option Int × Option BestMetrics) (entry : Int × VAssign) :
    Rat × Option Int × Option BestMetrics :=
  let bestScore := st.1
  let assignment := entry.2
  let vehicleTypeScore := getVehicleTypeCompatibility trip.vehicleType assignment.vehicle.type
  if vehicleTypeScore < 50 then st
  else if ¬ (getTripRequiredSkills trip).any
      (fun skill => (getVehicleSkills assignment.vehicle).contains skill) then st
  else if (checkTimeConflicts trip assignment.trips cfg).hasConflict then
    match cfg with
    | some c =>
      if c.allowConflictPenalty then
        let conflictPenalty := jsOrI (some c.conflictPenaltyScore) 50
        let minScore := jsOrI (some c.minAssignmentScore) 20
        let adjustedScore : Rat := (vehicleTypeScore : Rat) - (conflictPenalty : Rat)
        if adjustedScore > bestScore ∧ adjustedScore > (minScore : Rat) then
          (adjustedScore, some entry.1, some (.penalty 50 90 adjustedScore))
        else st
      else st
    | none => st
  else
    let routeMetrics := calculateRouteMetrics trip assignment dm durm
    let score := calculateTripAssignmentScore trip assignment.vehicle routeMetrics
      assignment.trips.length
    if score > bestScore then (score, some entry.1, some (.route routeMetrics))
    else st

/-- findBestVehicleForTrip: fold the loop over the map entries, then
accept when the best vehicle id is truthy and the best score clears 15. -/
def findBestVehicleForTrip (trip : Trip) (vehicleAssignments : List (Int × VAssign))
    (dm durm : List (List Rat)) (cfg : Option TWConfig) : BestAssignmentResult :=
  match vehicleAssignments.foldl (fbLoopStep trip dm durm cfg) (-1, none, none) with
  | (bestScore, some vid, some bm) =>
    if vid ≠ 0 ∧ bestScore > 15 then
      .success vid (jsRound bestScore) bm.additionalDistanceField
        bm.additionalDurationField bm.estimatedArrivalField
    else .failure "No compatible vehicle found with acceptable score"
  | _ => .failure "No compatible vehicle found with acceptable score"

structure FAssignment where
  vehicle : Vehicle
  score : Int
  totalDistance : Option Rat
  totalTime : Option Rat
  estimatedArrival : Option String
  fuelCost : Option Rat
deriving DecidableEq, Repr

structure FResultEntry where
  trip : Trip
  assignment : Option FAssignment
  status : String
  fallbackOptimized : Bool
  reason : Option String
deriving DecidableEq, Repr

/-- NaN-propagating addition of possibly-undefined totals. -/
def optAddR : Option Rat → Option Rat → Option Rat
  | some x, some y => some (x + y)
  | _, _ => none

/-- The greedy assignment pass: one result entry per sorted trip, pushing
assigned trips onto the chosen vehicle of the map. -/
def greedyAssign (dm durm : List (List Rat)) (cfg : Option TWConfig) :
    List Trip → List (Int × VAssign) → List FResultEntry →
    Except String (List (Int × VAssign) × List FResultEntry)
  | [], al, results => .ok (al, results)
  | trip :: rest, al, results =>
    match findBestVehicleForTrip trip al dm durm cfg with
    | .failure reason =>
      greedyAssign dm durm cfg rest al (results ++ [{
        trip := trip, assignment := none, status := "unassigned",
        fallbackOptimized := false, reason := some reason }])
    | .success vid score addlDist addlDur estArr =>
      match alGet al vid with
      | none => .error "TypeError: reading an entry of undefined"
      | some assignment =>
        greedyAssign dm durm cfg rest
          (alSet al vid { assignment with
            trips := assignment.trips ++ [trip]
            totalDistance := optAddR assignment.totalDistance addlDist
            totalDuration := optAddR assignment.totalDuration addlDur
            route := assignment.route ++ [
              { type := "pickup", location := trip.pickup, trip := trip,
                time := jsOrS trip.pickupTime trip.time },
              { type := "delivery", location := trip.destination, trip := trip,
                time := none } ] })
          (results ++ [{
            trip := trip
            assignment := some {
              vehicle := assignment.vehicle, score := score,
              totalDistance := addlDist, totalTime := addlDur,
              estimatedArrival := estArr,
              fuelCost := addlDist.map (fun d => d * (15/100)) }
            status := "assigned", fallbackOptimized := true, reason := none }])

structure TwoOptResult where
  improved : Bool
  trips : List Trip
  totalDistance : Rat
  totalDuration : Rat
deriving DecidableEq, Repr

/-- calculateRouteDistance(trips): the mock distance, consuming one draw
of the Math.random stream. -/
def calculateRouteDistance (rand : Nat → Rat) (k : Nat) (trips : List Trip) : Rat × Nat :=
  ((trips.length : Rat) * 10 + rand k * 5, k + 1)

/-- Reverse the slice from i to j inclusive. -/
def reverseSegment (l : List Trip) (i j : Nat) : List Trip :=
  l.take i ++ ((l.drop i).take (j + 1 - i)).reverse ++ l.drop (j + 1)

/-- The index pairs visited by the 2-opt double loop, in visit order. -/
def twoOptPairs (n : Nat) : List (Nat × Nat) :=
  ((List.range n).filter (fun i => decide (1 ≤ i) && decide (i + 1 < n))).flatMap
    (fun i => ((List.range n).filter (fun j => decide (i < j))).map (fun j => (i, j)))

/-- The inner update of the swap loop: recompute the mock distance of the
candidate reversal and keep it when strictly better. -/
def twoOptLoop (rand : Nat → Rat) (trips : List Trip) :
    List (Nat × Nat) → List Trip × Rat × Bool × Nat → List Trip × Rat × Bool × Nat
  | [], st => st
  | (i, j) :: rest, (bestTrips, bestDistance, improved, k) =>
    let step := calculateRouteDistance rand k (reverseSegment trips i j)
    if step.1 < bestDistance then
      twoOptLoop rand trips rest (reverseSegment trips i j, step.1, true, step.2)
    else twoOptLoop rand trips rest (bestTrips, bestDistance, improved, step.2)

/-- apply2OptImprovement(trips, vehicle, distanceMatrix). -/
def apply2OptImprovement (rand : Nat → Rat) (k : Nat) (trips : List Trip)
    (_vehicle : Vehicle) (_distanceMatrix : List (List Rat)) : TwoOptResult × Nat :=
  if trips.length ≤ 2 then
    ({ improved := false, trips := trips, totalDistance := 0, totalDuration := 0 }, k)
  else
    let start := calculateRouteDistance rand k trips
    let fin := twoOptLoop rand trips (twoOptPairs trips.length) (trips, start.1, false, start.2)
    ({ improved := fin.2.2.1, trips := fin.1, totalDistance := fin.2.1,
       totalDuration := fin.2.1 / 40 * 60 }, fin.2.2.2)

/-- Store a 2-opt result back into the map when it improved the route. -/
def twoOptUpdate (st : List (Int × VAssign) × Nat) (vid : Int) (assignment : VAssign)
    (res : TwoOptResult × Nat) : List (Int × VAssign) × Nat :=
  if res.1.improved then
    (alSet st.1 vid { assignment with
      trips := res.1.trips
      totalDistance := some res.1.totalDistance
      totalDuration := some res.1.totalDuration }, res.2)
  else (st.1, res.2)

/-- One vehicle of the 2-opt post-pass: routes with more than two trips
are re-optimized, the random-draw counter is threaded through. -/
def twoOptStep (rand : Nat → Rat) (dm : List (List Rat))
    (st : List (Int × VAssign) × Nat) (vid : Int) : List (Int × VAssign) × Nat :=
  match alGet st.1 vid with
  | none => st
  | some assignment =>
    if assignment.trips.length > 2 then
      twoOptUpdate st vid assignment
        (apply2OptImprovement rand st.2 assignment.trips assignment.vehicle dm)
    else st

/-- The post-pass over the map entries applying 2-opt to routes with more
than two trips. -/
def twoOptPhase (rand : Nat → Rat) (dm : List (List Rat))
    (al : List (Int × VAssign)) : List (Int × VAssign) × Nat :=
  (al.map (fun p => p.1)).foldl (twoOptStep rand dm) (al, 0)

structure VroomStep where
  type : String
  id : Option Int
  job : Option Int
  location : Option (List Rat)
  arrival : Option Int
  duration : Option Int
deriving DecidableEq, Repr

structure VroomRoute where
  vehicle : Int
  steps : List VroomStep
  distance : Option Int
  duration : Option Int
  cost : Option Int
deriving DecidableEq, Repr

structure UnassignedEntry where
  id : Int
  code : Int
  description : Option String
deriving DecidableEq, Repr

structure FSummary where
  totalTrips : Nat
  assignedTrips : Nat
  unassignedTrips : Nat
  assignmentRate : Option Int
  totalDistance : Option Rat
  totalDuration : Option Int
  averageOptimizationScore : Rat
  estimatedFuelCost : Option Rat
deriving DecidableEq, Repr

structure FallbackResult where
  results : List FResultEntry
  vehicleAssignments : List VAssign
  summary : FSummary
  algorithm : String
  fallback : Bool
  vroomOffline : Bool
  routes : List VroomRoute
  unassigned : List UnassignedEntry
deriving DecidableEq, Repr

/-- The VROOM-compatible routes block. -/
def vroomRoutesOf (al : List (Int × VAssign)) : List VroomRoute :=
  al.map (fun p =>
    { vehicle := p.2.vehicle.id
      steps :=
        [{ type := "start", id := none, job := none,
           location := some (p.2.vehicle.coordinates.getD [6.1286, 43.1205]),
           arrival := none, duration := none }] ++
        (p.2.trips.flatMap (fun trip =>
          [{ type := "pickup", id := some (trip.id * 10 + 1), job := some trip.id,
             location := some (trip.coordinates.getD [6.1286, 43.1205]),
             arrival := some 0, duration := some 600 },
           { type := "delivery", id := some (trip.id * 10 + 2), job := some trip.id,
             location := some (trip.destinationCoords.getD [6.1286, 43.1205]),
             arrival := some 1800, duration := some 600 }])) ++
        [{ type := "end", id := none, job := none,
           location := some (p.2.vehicle.coordinates.getD [6.1286, 43.1205]),
           arrival := none, duration := none }]
      distance := p.2.totalDistance.map (fun d => jsRound (d * 1000))
      duration := p.2.totalDuration.map (fun d => jsRound (d * 60))
      cost := p.2.totalDistance.map (fun d => jsRound (d * (15/100) * 100)) })

/-- The summary and final record construction of fallbackVRPSolver. -/
def buildFallbackResult (trips : List Trip) (al2 : List (Int × VAssign))
    (results : List FResultEntry) : FallbackResult :=
  let assignedCount := (results.filter (fun r => r.status = "assigned")).length
  let totalDistance := al2.foldl (fun acc p => optAddR acc p.2.totalDistance) (some 0)
  let totalDuration := al2.foldl (fun acc p => optAddR acc p.2.totalDuration) (some 0)
  let scoreSum : Int := results.foldl (fun acc r =>
    if r.status = "assigned" then
      acc + (match r.assignment with | some a => a.score | none => 0)
    else acc) 0
  { results := results
    vehicleAssignments := al2.map (fun p => p.2)
    summary := {
      totalTrips := trips.length
      assignedTrips := assignedCount
      unassignedTrips := results.length - assignedCount
      assignmentRate :=
        if trips.length = 0 then none
        else some (jsRound ((assignedCount : Rat) / (trips.length : Rat) * 100))
      totalDistance := totalDistance.map roundTo1
      totalDuration := totalDuration.map jsRound
      averageOptimizationScore := (scoreSum : Rat) / ((max assignedCount 1 : Nat) : Rat)
      estimatedFuelCost := totalDistance.map (fun d => roundTo2 (d * (15/100))) }
    algorithm := "Fallback VRP (Greedy + 2-opt)"
    fallback := true
    vroomOffline := true
    routes := vroomRoutesOf al2
    unassigned := (results.filter (fun r => r.status = "unassigned")).map (fun r =>
      { id := r.trip.id, code := 1, description := r.reason }) }

/-- The priority order of the sort, defaulting to normal. -/
def priorityOrderVal : Option String → Int
  | some "urgent" => 4
  | some "high" => 3
  | some "normal" => 2
  | some "low" => 1
  | _ => 2

/-- Character-list lexicographic strict order, the localeCompare model. -/
def strLtChars : List Char → List Char → Bool
  | [], [] => false
  | [], _ :: _ => true
  | _ :: _, [] => false
  | a :: as2, b :: bs => if a < b then true else if b < a then false else strLtChars as2 bs

/-- localeCompare(s, t) non-positive. -/
def localeCompareLE (s t : String) : Bool := ! strLtChars t.data s.data

/-- a.appointmentTime || a.pickupTime || a.time || "09:00". -/
def fallbackTimeKey (t : Trip) : String :=
  (jsOrS (jsOrS (jsOrS t.appointmentTime t.pickupTime) t.time) (some "09:00")).getD "09:00"

/-- The sort comparator as a keep-before test: priority first, regular
appointments before returns, then time ascending. -/
def fallbackTripLE (a b : Trip) : Bool :=
  let priorityDiff := priorityOrderVal b.priority - priorityOrderVal a.priority
  if priorityDiff ≠ 0 then priorityDiff ≤ 0
  else
    let typeScoreA : Int := if a.isReturnTrip then 1 else 2
    let typeScoreB : Int := if b.isReturnTrip then 1 else 2
    if typeScoreA ≠ typeScoreB then typeScoreB - typeScoreA ≤ 0
    else localeCompareLE (fallbackTimeKey a) (fallbackTimeKey b)

/-- One step of the seeding pass: vehicles not in maintenance get an
empty assignment, maintenance vehicles are skipped. -/
def seedStep (al : List (Int × VAssign)) (vehicle : Vehicle) : List (Int × VAssign) :=
  if vehicle.status ≠ some "maintenance" then
    alSet al vehicle.id { vehicle := vehicle, trips := [], totalDistance := some 0
                          totalDuration := some 0, route := [] }
  else al

/-- The initial per-vehicle map, seeded without maintenance vehicles. -/
def seedAssignments (vehicles : List Vehicle) : List (Int × VAssign) :=
  vehicles.foldl seedStep []

/-- fallbackVRPSolver(trips, vehicles, distanceMatrix, durationMatrix,
timeWindowConfig): seed the map, sort, greedily assign, 2-opt each route
with more than two trips, and build the summary.  The try/catch of the
source rethrows, so a thrown error propagates. -/
def fallbackVRPSolver (rand : Nat → Rat) (trips : List Trip) (vehicles : List Vehicle)
    (distanceMatrix durationMatrix : List (List Rat)) (timeWindowConfig : Option TWConfig) :
    Except String FallbackResult :=
  match greedyAssign distanceMatrix durationMatrix
      (some (timeWindowConfig.getD defaultTWConfig))
      (trips.mergeSort fallbackTripLE) (seedAssignments vehicles) [] with
  | .error e => .error e
  | .ok (al1, results) =>
    .ok (buildFallbackResult trips (twoOptPhase rand distanceMatrix al1).1 results)

/-! ### Claim C6: the conflict gate is symmetric -/

theorem bufferFor_symm (t1 t2 : TimeBounds) (cfg : Option TWConfig) :
    bufferFor t1 t2 cfg = bufferFor t2 t1 cfg := by
  unfold bufferFor
  split_ifs <;> first | rfl | tauto

theorem checkTimeOverlap_symm (t1 t2 : TimeBounds) (cfg : Option TWConfig) :
    checkTimeOverlap t1 t2 cfg = checkTimeOverlap t2 t1 cfg := by
  unfold checkTimeOverlap
  rw [bufferFor_symm t2 t1 cfg]
  exact Bool.and_comm _ _

/-- Claim C6: for every pair of trips and every configuration, the
buffered interval-overlap conflict test of the fallback solver commutes
in its two trips. -/
theorem checkTimeConflicts_symm (A B : Trip) (cfg : Option TWConfig) :
    (checkTimeConflicts A [B] cfg).hasConflict =
    (checkTimeConflicts B [A] cfg).hasConflict := by
  cases hA : getTimeBounds A with
  | none =>
    cases hB : getTimeBounds B with
    | none => simp [checkTimeConflicts, findOverlap, hA, hB]
    | some tb => simp [checkTimeConflicts, findOverlap, hA, hB]
  | some ta =>
    cases hB : getTimeBounds B with
    | none => simp [checkTimeConflicts, findOverlap, hA, hB]
    | some tb =>
      by_cases hov : checkTimeOverlap ta tb cfg = true
      · have hov2 : checkTimeOverlap tb ta cfg = true := by
          rw [checkTimeOverlap_symm tb ta cfg]
          exact hov
        simp [checkTimeConflicts, findOverlap, hA, hB, hov, hov2]
      · have hov2 : ¬ checkTimeOverlap tb ta cfg = true := by
          rw [checkTimeOverlap_symm tb ta cfg]
          exact hov
        simp [checkTimeConflicts, findOverlap, hA, hB, hov, hov2]

/-! ### Claim C8: the solver depends on Math.random -/

theorem buildFallbackResult_results (trips : List Trip) (al : List (Int × VAssign))
    (results : List FResultEntry) : (buildFallbackResult trips al results).results = results :=
  rfl

/-- Claim C8 (amended): the per-trip results of the fallback solver are
independent of the Math.random stream — the greedy pass never draws from
it — even though the 2-opt pass does consume it. -/
theorem fallbackVRPSolver_results_rand_independent (r1 r2 : Nat → Rat)
    (trips : List Trip) (vehicles : List Vehicle) (dm durm : List (List Rat))
    (cfg : Option TWConfig) :
    (fallbackVRPSolver r1 trips vehicles dm durm cfg).map (fun r => r.results) =
    (fallbackVRPSolver r2 trips vehicles dm durm cfg).map (fun r => r.results) := by
  unfold fallbackVRPSolver
  cases h : greedyAssign dm durm (some (cfg.getD defaultTWConfig))
      (trips.mergeSort fallbackTripLE) (seedAssignments vehicles) [] with
  | error e => rfl
  | ok pair =>
    obtain ⟨al1, results⟩ := pair
    simp only [Except.map, buildFallbackResult_results]

/-- The three-trip, one-vehicle scenario of the randomness counterexample. -/
def cxTrips : List Trip :=
  [{ id := 1, patient := "P1", vehicleType := some "VSL", appointmentTime := some "07:00" },
   { id := 2, patient := "P2", vehicleType := some "VSL", appointmentTime := some "12:00" },
   { id := 3, patient := "P3", vehicleType := some "VSL", appointmentTime := some "17:00" }]

def cxVehicles : List Vehicle :=
  [{ id := 1, name := "V", type := some "VSL", status := some "available" }]

/-- Claim C8 counterexample: two runs on identical inputs that differ
only in the Math.random draws disagree on the reported total distance
(33 versus 30), because the 2-opt pass compares mock route distances that
include a random term. -/
theorem fallbackVRPSolver_random_dependent :
    (fallbackVRPSolver (fun _ => 0) cxTrips cxVehicles [] [] none).map
      (fun r => r.summary.totalDistance) ≠
    (fallbackVRPSolver (fun n => if n = 0 then 1 else 0) cxTrips cxVehicles [] [] none).map
      (fun r => r.summary.totalDistance) := by
  have hms : cxTrips.mergeSort fallbackTripLE = cxTrips :=
    List.mergeSort_of_sorted (by decide)
  have h1 : (fallbackVRPSolver (fun _ => 0) cxTrips cxVehicles [] [] none).map
      (fun r => r.summary.totalDistance) = .ok (some 33) := by
    unfold fallbackVRPSolver
    rw [hms]
    with_unfolding_all rfl
  have h2 : (fallbackVRPSolver (fun n => if n = 0 then 1 else 0) cxTrips cxVehicles [] []
      none).map (fun r => r.summary.totalDistance) = .ok (some 30) := by
    unfold fallbackVRPSolver
    rw [hms]
    with_unfolding_all rfl
  intro habs
  rw [h1, h2] at habs
  have h3 : (some (33 : Rat) : Option Rat) = some 30 := by injection habs
  have h4 : (33 : Rat) = 30 := by injection h3
  norm_num at h4

/-! ### Claim C7: maintenance vehicles are never assigned -/

theorem alGet_mem (al : List (Int × VAssign)) (k : Int) (v : VAssign)
    (h : alGet al k = some v) : ∃ p ∈ al, p.2 = v := by
  unfold alGet at h
  cases hf : al.find? (fun p => p.1 = k) with
  | none => rw [hf] at h; cases h
  | some p =>
    rw [hf] at h
    exact ⟨p, List.mem_of_find?_eq_some hf, by simpa using h⟩

theorem alSet_mem (al : List (Int × VAssign)) (k : Int) (v : VAssign) (p : Int × VAssign)
    (h : p ∈ alSet al k v) : p.2 = v ∨ p ∈ al := by
  unfold alSet at h
  split at h
  · obtain ⟨q, hq, hpq⟩ := List.mem_map.mp h
    by_cases hk : q.1 = k
    · left
      rw [← hpq]
      simp [hk]
    · right
      rw [← hpq]
      simp only [hk, if_neg]
      · exact hq
  · rcases List.mem_append.mp h with h1 | h1
    · right
      exact h1
    · left
      simp only [List.mem_singleton] at h1
      rw [h1]

theorem foldl_seedStep_inv (vehicles : List Vehicle) (al : List (Int × VAssign))
    (h : ∀ p ∈ al, p.2.vehicle.status ≠ some "maintenance") :
    ∀ p ∈ vehicles.foldl seedStep al, p.2.vehicle.status ≠ some "maintenance" := by
  induction vehicles generalizing al with
  | nil => simpa using h
  | cons v vs ih =>
    rw [List.foldl_cons]
    apply ih
    intro p hp
    unfold seedStep at hp
    by_cases hv : v.status = some "maintenance"
    · rw [if_neg (fun hne => hne hv)] at hp
      exact h p hp
    · rw [if_pos hv] at hp
      rcases alSet_mem _ _ _ _ hp with h1 | h1
      · rw [h1]
        exact hv
      · exact h p h1

theorem seedAssignments_inv (vehicles : List Vehicle) :
    ∀ p ∈ seedAssignments vehicles, p.2.vehicle.status ≠ some "maintenance" :=
  foldl_seedStep_inv vehicles [] (by intro p hp; cases hp)

theorem greedyAssign_inv (dm durm : List (List Rat)) (cfg : Option TWConfig)
    (trips : List Trip) :
    ∀ (al : List (Int × VAssign)) (results : List FResultEntry)
      (al1 : List (Int × VAssign)) (results1 : List FResultEntry),
      greedyAssign dm durm cfg trips al results = .ok (al1, results1) →
      (∀ p ∈ al, p.2.vehicle.status ≠ some "maintenance") →
      (∀ r ∈ results, ∀ a, r.assignment = some a →
        a.vehicle.status ≠ some "maintenance") →
      (∀ p ∈ al1, p.2.vehicle.status ≠ some "maintenance") ∧
      (∀ r ∈ results1, ∀ a, r.assignment = some a →
        a.vehicle.status ≠ some "maintenance") := by
  induction trips with
  | nil =>
    intro al results al1 results1 h hal hres
    simp only [greedyAssign] at h
    rw [Except.ok.injEq, Prod.mk.injEq] at h
    obtain ⟨h1, h2⟩ := h
    subst h1
    subst h2
    exact ⟨hal, hres⟩
  | cons trip rest ih =>
    intro al results al1 results1 h hal hres
    simp only [greedyAssign] at h
    split at h
    · refine ih _ _ _ _ h hal ?_
      intro r hr a ha
      rcases List.mem_append.mp hr with h1 | h1
      · exact hres r h1 a ha
      · simp only [List.mem_singleton] at h1
        subst h1
        cases ha
    · split at h
      · cases h
      · rename_i assignment hg
        obtain ⟨q, hq, hq2⟩ := alGet_mem _ _ _ hg
        have hveh : assignment.vehicle.status ≠ some "maintenance" := by
          rw [← hq2]
          exact hal q hq
        refine ih _ _ _ _ h ?_ ?_
        · intro p hp
          rcases alSet_mem _ _ _ _ hp with h1 | h1
          · rw [h1]
            exact hveh
          · exact hal p h1
        · intro r hr a ha
          rcases List.mem_append.mp hr with h1 | h1
          · exact hres r h1 a ha
          · simp only [List.mem_singleton] at h1
            subst h1
            simp only [Option.some.injEq] at ha
            rw [← ha]
            exact hveh

theorem twoOptUpdate_mem (st : List (Int × VAssign) × Nat) (vid : Int)
    (assignment : VAssign) (res : TwoOptResult × Nat) (p : Int × VAssign)
    (h : p ∈ (twoOptUpdate st vid assignment res).1) :
    p.2.vehicle = assignment.vehicle ∨ p ∈ st.1 := by
  unfold twoOptUpdate at h
  split at h
  · rcases alSet_mem _ _ _ _ h with h1 | h1
    · left
      rw [h1]
    · right
      exact h1
  · right
    exact h

theorem foldl_twoOptStep_inv (rand : Nat → Rat) (dm : List (List Rat))
    (vids : List Int) :
    ∀ (st : List (Int × VAssign) × Nat),
      (∀ p ∈ st.1, p.2.vehicle.status ≠ some "maintenance") →
      ∀ p ∈ (vids.foldl (twoOptStep rand dm) st).1,
        p.2.vehicle.status ≠ some "maintenance" := by
  induction vids with
  | nil =>
    intro st h
    simpa using h
  | cons v vs ih =>
    intro st h
    rw [List.foldl_cons]
    apply ih
    intro p hp
    unfold twoOptStep at hp
    split at hp
    · exact h p hp
    · rename_i assignment hg
      obtain ⟨q, hq, hq2⟩ := alGet_mem _ _ _ hg
      have hveh : assignment.vehicle.status ≠ some "maintenance" := by
        rw [← hq2]
        exact h q hq
      split at hp
      · rcases twoOptUpdate_mem _ _ _ _ _ hp with h1 | h1
        · rw [h1]
          exact hveh
        · exact h p h1
      · exact h p hp

end Fallback

/-! ### Claim C7: the maintenance exclusion across both optimizers -/

/-- Claim C7: vehicles with status "maintenance" are never assigned.
findBestVehicleAssignment never recommends one nor offers one as an
alternative, and every vehicle in the map built by fallbackVRPSolver —
hence every assignment it reports — is a non-maintenance vehicle. -/
theorem maintenance_never_assigned :
    (∀ (dist : Adv.DistFn) (trip : Trip) (vehicles : List Vehicle),
      (∀ e, (Adv.findBestVehicleAssignment dist trip vehicles).recommended = some e →
        e.vehicle.status ≠ some "maintenance") ∧
      (∀ e ∈ (Adv.findBestVehicleAssignment dist trip vehicles).alternatives,
        e.vehicle.status ≠ some "maintenance")) ∧
    (∀ (rand : Nat → Rat) (trips : List Trip) (vehicles : List Vehicle)
      (dm durm : List (List Rat)) (cfg : Option Fallback.TWConfig)
      (res : Fallback.FallbackResult),
      Fallback.fallbackVRPSolver rand trips vehicles dm durm cfg = .ok res →
      (∀ va ∈ res.vehicleAssignments, va.vehicle.status ≠ some "maintenance") ∧
      (∀ r ∈ res.results, ∀ a, r.assignment = some a →
        a.vehicle.status ≠ some "maintenance")) := by
  constructor
  · intro dist trip vehicles
    by_cases hcand : vehicles.filter Adv.notMaintenance = []
    · have hres : Adv.findBestVehicleAssignment dist trip vehicles =
          { success := false
            message := "Aucun véhicule disponible (tous en maintenance)"
            recommended := none, alternatives := [], lowScore := false
            forceAssigned := false, forced := false, warning := none,
            debugInfo := none } := by
        unfold Adv.findBestVehicleAssignment
        rw [hcand]
        rfl
      constructor
      · intro e hrec
        rw [hres] at hrec
        exact Option.noConfusion hrec
      · intro e he
        rw [hres] at he
        exact absurd he (List.not_mem_nil e)
    · cases hs : ((vehicles.filter Adv.notMaintenance).map
          (Adv.evaluateVehicle dist trip)).mergeSort Adv.evalLE with
      | nil =>
        exfalso
        have hlen := congrArg List.length hs
        rw [List.length_mergeSort, List.length_map] at hlen
        exact hcand (List.eq_nil_of_length_eq_zero hlen)
      | cons best rest =>
        have hmem : ∀ e ∈ best :: rest, e.vehicle.status ≠ some "maintenance" := by
          intro e he
          have hbm : e ∈ ((vehicles.filter Adv.notMaintenance).map
              (Adv.evaluateVehicle dist trip)).mergeSort Adv.evalLE := by
            rw [hs]
            exact he
          rw [List.mem_mergeSort] at hbm
          obtain ⟨v, hv, hve⟩ := List.mem_map.mp hbm
          have hvm : v.status ≠ some "maintenance" := by
            simpa [Adv.notMaintenance] using (List.mem_filter.mp hv).2
          rw [← hve]
          exact hvm
        have hie : (vehicles.filter Adv.notMaintenance).isEmpty = false := by
          simpa [List.isEmpty_iff] using hcand
        have hres : Adv.findBestVehicleAssignment dist trip vehicles =
            if best.score > 5 then
              { success := true
                message := "Véhicule assigné: " ++ best.vehicle.name
                recommended := some best
                alternatives := rest.take 4
                lowScore := best.score < 50
                forceAssigned := best.score < 30
                forced := false, warning := none, debugInfo := none }
            else
              { success := true
                message := "Assignation forcée: " ++ best.vehicle.name
                recommended := some best
                alternatives := rest.take 4
                lowScore := false, forceAssigned := false
                forced := true
                warning := some "Cette assignation pourrait ne pas être optimale"
                debugInfo := none } := by
          unfold Adv.findBestVehicleAssignment
          rw [hie, hs]
          rfl
        constructor
        · intro e hrec
          rw [hres] at hrec
          split at hrec <;>
            (simp only [Option.some.injEq] at hrec
             rw [← hrec]
             exact hmem best (List.mem_cons_self best rest))
        · intro e he
          rw [hres] at he
          split at he <;>
            exact hmem e (List.mem_cons_of_mem best (List.mem_of_mem_take he))
  · intro rand trips vehicles dm durm cfg res h
    unfold Fallback.fallbackVRPSolver at h
    split at h
    · cases h
    · rename_i al1 results heq
      rw [Except.ok.injEq] at h
      obtain ⟨hal1, hres1⟩ := Fallback.greedyAssign_inv dm durm
        (some (cfg.getD Fallback.defaultTWConfig)) (trips.mergeSort Fallback.fallbackTripLE)
        (Fallback.seedAssignments vehicles) [] al1 results heq
        (Fallback.seedAssignments_inv vehicles) (by intro r hr; cases hr)
      have hal2 : ∀ p ∈ (Fallback.twoOptPhase rand dm al1).1,
          p.2.vehicle.status ≠ some "maintenance" := by
        unfold Fallback.twoOptPhase
        exact Fallback.foldl_twoOptStep_inv rand dm (al1.map (fun p => p.1)) (al1, 0) hal1
      rw [← h]
      constructor
      · intro va hva
        obtain ⟨p, hp, hpva⟩ := List.mem_map.mp hva
        rw [← hpva]
        exact hal2 p hp
      · intro r hr a ha
        exact hres1 r hr a ha

theorem maintenance_never_assigned_witness :
    ((Adv.findBestVehicleAssignment (fun _ _ => 0) { id := 1 }
        [{ id := 1, name := "M1", type := some "VSL", status := some "maintenance" },
         { id := 2, name := "V2", type := some "VSL", status := some "available" },
         { id := 3, name := "V3", type := some "ambulance", status := some "busy" }]).alternatives.all
      (fun e => e.vehicle.status != some "maintenance")) = true ∧
    ((Fallback.buildFallbackResult [] [] []).vehicleAssignments.all
      (fun va => va.vehicle.status != some "maintenance")) = true := by
  constructor
  · rw [List.all_eq_true]
    intro e he
    have := (maintenance_never_assigned.1 (fun _ _ => 0) { id := 1 }
      [{ id := 1, name := "M1", type := some "VSL", status := some "maintenance" },
       { id := 2, name := "V2", type := some "VSL", status := some "available" },
       { id := 3, name := "V3", type := some "ambulance", status := some "busy" }]).2 e he
    simpa using this
  · rw [List.all_eq_true]
    intro va hva
    have hok : Fallback.fallbackVRPSolver (fun _ => 0) [] [] [] [] none =
        .ok (Fallback.buildFallbackResult [] [] []) := by
      unfold Fallback.fallbackVRPSolver
      rw [List.mergeSort_nil]
      rfl
    have := (maintenance_never_assigned.2 (fun _ => 0) [] [] [] [] none
      (Fallback.buildFallbackResult [] [] []) hok).1 va hva
    simpa using this

namespace Batch

/-! ## The batch optimizer of advancedOptimizationTests.js

optimizeMultipleTrips and the conflict-resolution pipeline it drives.
The vehicle-assignment Map is an insertion-ordered association list from
vehicle id to trip list; thrown TypeErrors are the error side of Except. -/

/-- Map.get on the id-to-trips association list. -/
def alGetT (al : List (Int × List Trip)) (k : Int) : Option (List Trip) :=
  (al.find? (fun p => p.1 = k)).map (fun p => p.2)

/-- Map.set on the id-to-trips association list. -/
def alSetT (al : List (Int × List Trip)) (k : Int) (v : List Trip) :
    List (Int × List Trip) :=
  if al.any (fun p => p.1 = k) then al.map (fun p => if p.1 = k then (k, v) else p)
  else al ++ [(k, v)]

/-- The trip sort of optimizeMultipleTrips as a keep-before test:
priority descending, then the coalesced pickup time ascending. -/
def advTripLE (a b : Trip) : Bool :=
  let priorityDiff := Fallback.priorityOrderVal b.priority - Fallback.priorityOrderVal a.priority
  if priorityDiff ≠ 0 then priorityDiff ≤ 0
  else Fallback.localeCompareLE (Adv.tripTimeKey a) (Adv.tripTimeKey b)

/-- calculateTimeShift(originalTime, newTime) in minutes, NaN-propagating. -/
def calculateTimeShift (originalTime newTime : String) : Option Int :=
  match Adv.convertTimeToMinutes (some originalTime), Adv.convertTimeToMinutes (some newTime) with
  | some a, some b => some (b - a)
  | _, _ => none

/-- calculateTimeChangeImpact: the qualitative size of the shift; a NaN
shift fails every comparison and lands on "high". -/
def calculateTimeChangeImpact (originalTime newTime : String) : String :=
  match calculateTimeShift originalTime newTime with
  | none => "high"
  | some s =>
    if s.natAbs ≤ 30 then "minimal"
    else if s.natAbs ≤ 60 then "low"
    else if s.natAbs ≤ 120 then "medium"
    else "high"

/-- One alternative produced by findAlternativeTimeSlots. -/
structure TimeOption where
  newTime : String
  vehicle : String
  optimizationScore : Int
  timeShift : Option Int
  estimatedArrival : Option String
  impact : String
deriving DecidableEq, Repr

/-- One alternative produced by findAlternativeVehicles. -/
structure VehicleOption where
  vehicle : String
  vehicleType : Option String
  currentStatus : Option String
  optimizationScore : Int
  conflicts : Nat
  estimatedCost : Option Rat
  requiresRescheduling : Bool
deriving DecidableEq, Repr

/-- The tripToReschedule block of a rescheduling option. -/
structure ReschedInfo where
  patient : String
  oldTime : Option String
  newTime : String
deriving DecidableEq, Repr

/-- One option produced by suggestRescheduling. -/
structure ReschedOption where
  vehicle : String
  tripToReschedule : ReschedInfo
  newTripScore : Int
  impact : String
deriving DecidableEq, Repr

/-- The result of evaluateCombinedTrips. -/
structure CombinedEval where
  feasible : Bool
  vehicle : Option String
  estimatedTime : Option Int
  costSavings : Option Int
  combinedRoute : Option String
deriving DecidableEq, Repr

/-- The result of evaluateMultiVehicleCoordination. -/
structure MultiVehicleEval where
  feasible : Bool
  primaryVehicle : Option String
  supportVehicle : Option String
  strategy : Option String
  estimatedTime : Option Int
deriving DecidableEq, Repr

/-- One option produced by suggestTripOptimizations, tagged like the
source objects are by their type field. -/
inductive OptimizationOption where
  | combineTrips (description : String) (details : CombinedEval) (estimatedSavings : Option Int)
  | multiVehicle (description : String) (details : MultiVehicleEval)
deriving DecidableEq, Repr

/-- A resolution strategy; the constructor plays the role of the type
string and carries the homogeneous options array built with it. -/
inductive Strategy where
  | timeAdjustment (options : List TimeOption)
  | vehicleChange (options : List VehicleOption)
  | rescheduleExisting (options : List ReschedOption)
  | tripOptimization (options : List OptimizationOption)
deriving DecidableEq, Repr

/-- The type string of a strategy. -/
def Strategy.typeName : Strategy → String
  | .timeAdjustment _ => "time_adjustment"
  | .vehicleChange _ => "vehicle_change"
  | .rescheduleExisting _ => "reschedule_existing"
  | .tripOptimization _ => "trip_optimization"

/-- The description string of a strategy. -/
def Strategy.description : Strategy → String
  | .timeAdjustment _ => "Modifier l\x27heure de prise en charge"
  | .vehicleChange _ => "Utiliser un véhicule différent"
  | .rescheduleExisting _ => "Réorganiser les courses existantes"
  | .tripOptimization _ => "Optimiser l\x27organisation des courses"

/-- The result object of resolveConflicts. -/
structure ConflictResolution where
  originalTrip : Trip
  hasConflicts : Bool
  resolutionStrategies : List Strategy
  recommendedStrategy : Option Strategy
deriving DecidableEq, Repr

/-- The vehicle-plus-optimization assignment block reported for a
resolved or first-pass assignment. -/
structure BatchAssignment where
  vehicle : Vehicle
  score : Int
  details : Adv.OptDetails
deriving DecidableEq, Repr

/-- The per-strategy resolutionDetails block. -/
inductive ResolutionDetails where
  | timeAdjustment (oldTime : Option String) (newTime : String) (impact : String)
  | vehicleChange (newVehicle : String) (conflicts : Nat)
  | resched (rescheduledTrip : ReschedInfo)
  | tripOpt (typeName : String) (savings : Option Int)
deriving DecidableEq, Repr

/-- The outcome of applying one resolution strategy. -/
inductive ApplyResult where
  | success (assignment : BatchAssignment) (resolutionDetails : ResolutionDetails)
  | failure (reason : String)
deriving DecidableEq, Repr

/-- One entry of the results array of optimizeMultipleTrips. -/
structure BatchResultEntry where
  trip : Trip
  assignment : Option BatchAssignment
  status : String
  resolutionApplied : Option String
  resolutionDetails : Option ResolutionDetails
  reason : Option String
  availableStrategies : Option (List String)
deriving DecidableEq, Repr

/-- The 24 candidate slots of findAlternativeTimeSlots. -/
def timeSlots : List String :=
  ["07:00", "07:30", "08:00", "08:30", "09:00", "09:30",
   "10:00", "10:30", "11:00", "11:30", "12:00", "12:30",
   "13:00", "13:30", "14:00", "14:30", "15:00", "15:30",
   "16:00", "16:30", "17:00", "17:30", "18:00", "18:30"]

/-- The inner vehicle loop of findAlternativeTimeSlots: available or
busy vehicles are scored against the time-shifted trip; a positive score
with an empty conflicts array yields an alternative.  Reading length of
the missing conflicts array of an error detail would throw, but a
positive score never carries an error detail. -/
def tryVehiclesForSlot (dist : Adv.DistFn) (modifiedTrip : Trip)
    (originalTime timeSlot : String) :
    List Vehicle → List TimeOption → Except String (List TimeOption)
  | [], acc => .ok acc
  | vehicle :: vs, acc =>
    if vehicle.status = some "available" ∨ vehicle.status = some "busy" then
      match _hopt : Adv.calculateOptimizationScore dist modifiedTrip vehicle
          (vehicle.trips.getD []) with
      | optimization =>
        if optimization.score > 0 then
          match optimization.details.conflictsField with
          | none => .error "TypeError: reading length of undefined"
          | some conflicts =>
            if conflicts.length = 0 then
              tryVehiclesForSlot dist modifiedTrip originalTime timeSlot vs (acc ++
                [{ newTime := timeSlot
                   vehicle := vehicle.name
                   optimizationScore := optimization.score
                   timeShift := calculateTimeShift originalTime timeSlot
                   estimatedArrival := optimization.details.estimatedArrivalField
                   impact := calculateTimeChangeImpact originalTime timeSlot }])
            else tryVehiclesForSlot dist modifiedTrip originalTime timeSlot vs acc
        else tryVehiclesForSlot dist modifiedTrip originalTime timeSlot vs acc
    else tryVehiclesForSlot dist modifiedTrip originalTime timeSlot vs acc

/-- The outer slot loop of findAlternativeTimeSlots, skipping the
original time. -/
def slotsLoop (dist : Adv.DistFn) (trip : Trip) (vehicles : List Vehicle)
    (originalTime : String) :
    List String → List TimeOption → Except String (List TimeOption)
  | [], acc => .ok acc
  | slot :: rest, acc =>
    if slot = originalTime then slotsLoop dist trip vehicles originalTime rest acc
    else
      match tryVehiclesForSlot dist
          { trip with pickupTime := some slot, time := some slot }
          originalTime slot vehicles acc with
      | .error e => .error e
      | .ok acc2 => slotsLoop dist trip vehicles originalTime rest acc2

/-- The alternative-sort of findAlternativeTimeSlots as a keep-before
test: score descending, with close scores broken by the smaller absolute
time shift; a NaN shift makes the comparator NaN, modelled as keeping
the original order. -/
def timeAltLE (a b : TimeOption) : Bool :=
  let scoreDiff : Int := b.optimizationScore - a.optimizationScore
  if scoreDiff.natAbs < 10 then
    match a.timeShift, b.timeShift with
    | some x, some y => x.natAbs ≤ y.natAbs
    | _, _ => true
  else scoreDiff ≤ 0

/-- findAlternativeTimeSlots(trip, vehicles): top three of the sorted
alternatives. -/
def findAlternativeTimeSlots (dist : Adv.DistFn) (trip : Trip)
    (vehicles : List Vehicle) : Except String (List TimeOption) :=
  match slotsLoop dist trip vehicles (Adv.tripTimeKey trip) timeSlots [] with
  | .error e => .error e
  | .ok alternatives => .ok ((alternatives.mergeSort timeAltLE).take 3)

/-- The vehicle loop of findAlternativeVehicles: every non-maintenance
vehicle scoring above 30 becomes an option. -/
def altVehiclesLoop (dist : Adv.DistFn) (trip : Trip) :
    List Vehicle → List VehicleOption → Except String (List VehicleOption)
  | [], acc => .ok acc
  | vehicle :: vs, acc =>
    if vehicle.status = some "maintenance" then altVehiclesLoop dist trip vs acc
    else
      match _hopt : Adv.calculateOptimizationScore dist trip vehicle
          (vehicle.trips.getD []) with
      | optimization =>
        if optimization.score > 30 then
          match optimization.details.conflictsField with
          | none => .error "TypeError: reading length of undefined"
          | some conflicts =>
            altVehiclesLoop dist trip vs (acc ++
              [{ vehicle := vehicle.name
                 vehicleType := vehicle.type
                 currentStatus := vehicle.status
                 optimizationScore := optimization.score
                 conflicts := conflicts.length
                 estimatedCost := optimization.details.fuelCostField
                 requiresRescheduling := conflicts.length > 0 }])
        else altVehiclesLoop dist trip vs acc

/-- The alternative-vehicle sort: fewer conflicts first, then score
descending. -/
def altVehicleLE (a b : VehicleOption) : Bool :=
  if a.conflicts ≠ b.conflicts then a.conflicts ≤ b.conflicts
  else b.optimizationScore ≤ a.optimizationScore

/-- findAlternativeVehicles(trip, vehicles): top four sorted options. -/
def findAlternativeVehicles (dist : Adv.DistFn) (trip : Trip)
    (vehicles : List Vehicle) : Except String (List VehicleOption) :=
  match altVehiclesLoop dist trip vehicles [] with
  | .error e => .error e
  | .ok alternatives => .ok ((alternatives.mergeSort altVehicleLE).take 4)

/-- Each element of a list together with the rest of the list, in order;
this is the reference-identity filter of the source, which removes
exactly the occurrence being iterated. -/
def withRemoved : List Trip → List (Trip × List Trip)
  | [] => []
  | t :: rest => (t, rest) :: (withRemoved rest).map (fun p => (p.1, t :: p.2))

/-- The nine candidate times of suggestRescheduling. -/
def reschedSlots : List String :=
  ["07:00", "08:00", "09:00", "10:00", "11:00", "14:00", "15:00", "16:00", "17:00"]

/-- The time loop of suggestRescheduling: the moved existing trip and
then the new trip must both score above 60 without conflicts. -/
def tryReschedTimes (dist : Adv.DistFn) (newTrip : Trip) (vehicle : Vehicle)
    (existingTrip : Trip) (remainingTrips : List Trip) :
    List String → List ReschedOption → Except String (List ReschedOption)
  | [], acc => .ok acc
  | newTime :: rest, acc =>
    match _hr : Adv.calculateOptimizationScore dist
        { existingTrip with pickupTime := some newTime, time := some newTime }
        vehicle remainingTrips with
    | ro =>
      if ro.score > 60 then
        match ro.details.conflictsField with
        | none => .error "TypeError: reading length of undefined"
        | some c1 =>
          if c1.length = 0 then
            match _hn : Adv.calculateOptimizationScore dist newTrip vehicle
                (remainingTrips ++
                  [{ existingTrip with pickupTime := some newTime, time := some newTime }]) with
            | no =>
              if no.score > 60 then
                match no.details.conflictsField with
                | none => .error "TypeError: reading length of undefined"
                | some c2 =>
                  if c2.length = 0 then
                    tryReschedTimes dist newTrip vehicle existingTrip remainingTrips rest
                      (acc ++ [{ vehicle := vehicle.name
                                 tripToReschedule :=
                                   { patient := existingTrip.patient
                                     oldTime := jsOrS existingTrip.time existingTrip.pickupTime
                                     newTime := newTime }
                                 newTripScore := no.score
                                 impact := "low" }])
                  else tryReschedTimes dist newTrip vehicle existingTrip remainingTrips rest acc
              else tryReschedTimes dist newTrip vehicle existingTrip remainingTrips rest acc
          else tryReschedTimes dist newTrip vehicle existingTrip remainingTrips rest acc
      else tryReschedTimes dist newTrip vehicle existingTrip remainingTrips rest acc

/-- The existing-trip loop of suggestRescheduling, skipping urgent
trips. -/
def reschedTripsLoop (dist : Adv.DistFn) (newTrip : Trip) (vehicle : Vehicle) :
    List (Trip × List Trip) → List ReschedOption → Except String (List ReschedOption)
  | [], acc => .ok acc
  | (existingTrip, remaining) :: rest, acc =>
    if existingTrip.priority = some "urgent" then
      reschedTripsLoop dist newTrip vehicle rest acc
    else
      match tryReschedTimes dist newTrip vehicle existingTrip remaining reschedSlots acc with
      | .error e => .error e
      | .ok acc2 => reschedTripsLoop dist newTrip vehicle rest acc2

/-- The vehicle loop of suggestRescheduling, skipping vehicles without
trips. -/
def reschedVehiclesLoop (dist : Adv.DistFn) (newTrip : Trip) :
    List Vehicle → List ReschedOption → Except String (List ReschedOption)
  | [], acc => .ok acc
  | vehicle :: vs, acc =>
    match vehicle.trips with
    | none => reschedVehiclesLoop dist newTrip vs acc
    | some ts =>
      if ts.isEmpty then reschedVehiclesLoop dist newTrip vs acc
      else
        match reschedTripsLoop dist newTrip vehicle (withRemoved ts) acc with
        | .error e => .error e
        | .ok acc2 => reschedVehiclesLoop dist newTrip vs acc2

/-- The rescheduling sort: new-trip score descending. -/
def reschedLE (a b : ReschedOption) : Bool := b.newTripScore ≤ a.newTripScore

/-- suggestRescheduling(newTrip, vehicles, existingTrips): top three
options; the existingTrips argument is received but unused. -/
def suggestRescheduling (dist : Adv.DistFn) (newTrip : Trip) (vehicles : List Vehicle)
    (_existingTrips : List Trip) : Except String (List ReschedOption) :=
  match reschedVehiclesLoop dist newTrip vehicles [] with
  | .error e => .error e
  | .ok options => .ok ((options.mergeSort reschedLE).take 3)

/-- Stringify a possibly-undefined address as a template literal does. -/
def optStr (o : Option String) : String := o.getD "undefined"

/-- The second filter of findNearbyTrips: lowercases both pickups (each
throwing on undefined) and keeps same-town pairs. -/
def nearbyFilterLoop (trip : Trip) : List Trip → Except String (List Trip)
  | [] => .ok []
  | t :: rest =>
    match trip.pickup with
    | none => .error "TypeError: toLowerCase of undefined"
    | some tp =>
      match t.pickup with
      | none => .error "TypeError: toLowerCase of undefined"
      | some p =>
        let tripLocation := tp.toLower
        let otherLocation := p.toLower
        let keep :=
          (Adv.strIncludes tripLocation "hyères" && Adv.strIncludes otherLocation "hyères") ||
          (Adv.strIncludes tripLocation "toulon" && Adv.strIncludes otherLocation "toulon") ||
          (Adv.strIncludes tripLocation "la seyne" && Adv.strIncludes otherLocation "la seyne")
        match nearbyFilterLoop trip rest with
        | .error e => .error e
        | .ok l => .ok (if keep then t :: l else l)

/-- findNearbyTrips(trip, allTrips): other, non-completed trips in the
same mock town, first three; accessing the pickup of a malformed trip
throws. -/
def findNearbyTrips (trip : Trip) (allTrips : List Trip) : Except String (List Trip) :=
  match nearbyFilterLoop trip
      (allTrips.filter (fun t => t.id ≠ trip.id && t.status ≠ some "completed")) with
  | .error e => .error e
  | .ok l => .ok (l.take 3)

/-- canCombineTrips(trip1, trip2): within an hour, same required type,
neither urgent; a NaN time difference fails the hour test. -/
def canCombineTrips (trip1 trip2 : Trip) : Bool :=
  match Adv.convertTimeToMinutes (some (Adv.tripTimeKey trip1)),
      Adv.convertTimeToMinutes (some (Adv.tripTimeKey trip2)) with
  | some t1, some t2 =>
    (t1 - t2).natAbs ≤ 60 && trip1.vehicleType = trip2.vehicleType &&
      trip1.priority ≠ some "urgent" && trip2.priority ≠ some "urgent"
  | _, _ => false

/-- evaluateCombinedTrips(trip1, trip2, vehicles): feasible with the
first type-compatible vehicle and fixed mock figures. -/
def evaluateCombinedTrips (trip1 trip2 : Trip) (vehicles : List Vehicle) : CombinedEval :=
  match vehicles.filter (fun v => v.type = trip1.vehicleType) with
  | [] => { feasible := false, vehicle := none, estimatedTime := none
            costSavings := none, combinedRoute := none }
  | v :: _ =>
    { feasible := true
      vehicle := some v.name
      estimatedTime := some 90
      costSavings := some 15
      combinedRoute := some (optStr trip1.pickup ++ " → " ++ optStr trip1.destination ++
        " → " ++ optStr trip2.pickup ++ " → " ++ optStr trip2.destination) }

/-- evaluateMultiVehicleCoordination(trip, vehicles): feasible with the
first two available vehicles. -/
def evaluateMultiVehicleCoordination (_trip : Trip) (vehicles : List Vehicle) :
    MultiVehicleEval :=
  match vehicles.filter (fun v => v.status = some "available") with
  | a :: b :: _ =>
    { feasible := true, primaryVehicle := some a.name, supportVehicle := some b.name
      strategy := some "Relay transport", estimatedTime := some 60 }
  | _ =>
    { feasible := false, primaryVehicle := none, supportVehicle := none
      strategy := none, estimatedTime := none }

/-- The combination loop of suggestTripOptimizations. -/
def combineLoop (trip : Trip) (vehicles : List Vehicle) :
    List Trip → List OptimizationOption → List OptimizationOption
  | [], acc => acc
  | nearbyTrip :: rest, acc =>
    if canCombineTrips trip nearbyTrip then
      match _hce : evaluateCombinedTrips trip nearbyTrip vehicles with
      | ce =>
        if ce.feasible then
          combineLoop trip vehicles rest (acc ++
            [.combineTrips ("Combiner avec la course de " ++ nearbyTrip.patient)
              ce ce.costSavings])
        else combineLoop trip vehicles rest acc
    else combineLoop trip vehicles rest acc

/-- suggestTripOptimizations(trip, vehicles, allTrips): combinations
with nearby trips, plus multi-vehicle coordination for urgent or high
priority, first two. -/
def suggestTripOptimizations (_dist : Adv.DistFn) (trip : Trip) (vehicles : List Vehicle)
    (allTrips : List Trip) : Except String (List OptimizationOption) :=
  match findNearbyTrips trip allTrips with
  | .error e => .error e
  | .ok nearbyTrips =>
    let combineOpts := combineLoop trip vehicles nearbyTrips []
    let opts :=
      if trip.priority = some "urgent" ∨ trip.priority = some "high" then
        match _hmv : evaluateMultiVehicleCoordination trip vehicles with
        | mv =>
          if mv.feasible then
            combineOpts ++ [.multiVehicle "Coordination multi-véhicules" mv]
          else combineOpts
      else combineOpts
    .ok (opts.take 2)

/-- resolveConflicts(trip, vehicles, allTrips): collect the four
strategies in order and recommend the first one found. -/
def resolveConflicts (dist : Adv.DistFn) (trip : Trip) (vehicles : List Vehicle)
    (allTrips : List Trip) : Except String ConflictResolution :=
  match findAlternativeTimeSlots dist trip vehicles with
  | .error e => .error e
  | .ok timeAlternatives =>
    match findAlternativeVehicles dist trip vehicles with
    | .error e => .error e
    | .ok vehicleAlternatives =>
      match suggestRescheduling dist trip vehicles allTrips with
      | .error e => .error e
      | .ok reschedulingOptions =>
        match suggestTripOptimizations dist trip vehicles allTrips with
        | .error e => .error e
        | .ok optimizationOptions =>
          match _hst : (if timeAlternatives.length > 0 then
                [Strategy.timeAdjustment timeAlternatives] else []) ++
              (if vehicleAlternatives.length > 0 then
                [Strategy.vehicleChange vehicleAlternatives] else []) ++
              (if reschedulingOptions.length > 0 then
                [Strategy.rescheduleExisting reschedulingOptions] else []) ++
              (if optimizationOptions.length > 0 then
                [Strategy.tripOptimization optimizationOptions] else []) with
          | strategies =>
            .ok { originalTrip := trip
                  hasConflicts := true
                  resolutionStrategies := strategies
                  recommendedStrategy := strategies.head? }

/-- The trip stored on assignment: the estimatedDuration in hours is
derived from the optimization detail (NaN when it is missing). -/
def withEstimatedDuration (trip : Trip) (details : Adv.OptDetails) : Trip :=
  { trip with estimatedDuration := details.tripDurationField.map (fun d => (d : Rat) / 60) }

/-- applyTimeAdjustment(trip, timeOption, vehicles, vehicleAssignments). -/
def applyTimeAdjustment (dist : Adv.DistFn) (trip : Trip) (timeOption : TimeOption)
    (vehicles : List Vehicle) (al : List (Int × List Trip)) :
    Except String (ApplyResult × List (Int × List Trip)) :=
  match vehicles.find? (fun v => v.name = timeOption.vehicle) with
  | none => .ok (.failure "Véhicule cible non trouvé", al)
  | some targetVehicle =>
    match _hopt : Adv.calculateOptimizationScore dist
        { trip with pickupTime := some timeOption.newTime, time := some timeOption.newTime }
        targetVehicle ((alGetT al targetVehicle.id).getD []) with
    | optimization =>
      if optimization.score > 60 then
        match optimization.details.conflictsField with
        | none => .error "TypeError: reading length of undefined"
        | some conflicts =>
          if conflicts.length = 0 then
            match alGetT al targetVehicle.id with
            | none => .error "TypeError: push of undefined"
            | some currentTrips =>
              .ok (.success
                { vehicle := targetVehicle, score := optimization.score
                  details := optimization.details }
                (.timeAdjustment (jsOrS trip.pickupTime trip.time) timeOption.newTime
                  timeOption.impact),
                alSetT al targetVehicle.id (currentTrips ++
                  [withEstimatedDuration
                    { trip with pickupTime := some timeOption.newTime,
                                time := some timeOption.newTime }
                    optimization.details]))
          else .ok (.failure "Ajustement horaire non viable", al)
      else .ok (.failure "Ajustement horaire non viable", al)

/-- applyVehicleChange(trip, vehicleOption, vehicles, vehicleAssignments):
only the 30-point threshold gates success; the resolution details read
the conflicts array, which an error detail does not carry. -/
def applyVehicleChange (dist : Adv.DistFn) (trip : Trip) (vehicleOption : VehicleOption)
    (vehicles : List Vehicle) (al : List (Int × List Trip)) :
    Except String (ApplyResult × List (Int × List Trip)) :=
  match vehicles.find? (fun v => v.name = vehicleOption.vehicle) with
  | none => .ok (.failure "Véhicule alternatif non trouvé", al)
  | some targetVehicle =>
    match _hopt : Adv.calculateOptimizationScore dist trip targetVehicle
        ((alGetT al targetVehicle.id).getD []) with
    | optimization =>
      if optimization.score > 30 then
        match alGetT al targetVehicle.id with
        | none => .error "TypeError: push of undefined"
        | some currentTrips =>
          match optimization.details.conflictsField with
          | none => .error "TypeError: reading length of undefined"
          | some conflicts =>
            .ok (.success
              { vehicle := targetVehicle, score := optimization.score
                details := optimization.details }
              (.vehicleChange vehicleOption.vehicle conflicts.length),
              alSetT al targetVehicle.id (currentTrips ++
                [withEstimatedDuration trip optimization.details]))
      else .ok (.failure "Changement de véhicule non viable", al)

/-- find plus the reference-identity filter: the first trip matching the
test together with the list without that occurrence. -/
def findWithRemoved (p : Trip → Bool) : List Trip → Option (Trip × List Trip)
  | [] => none
  | t :: rest =>
    if p t then some (t, rest)
    else (findWithRemoved p rest).map (fun q => (q.1, t :: q.2))

/-- applyRescheduling(trip, reschedulingOption, vehicles,
vehicleAssignments): move the matched existing trip to the new time,
append the new trip with a default one-hour duration, and always
succeed. -/
def applyRescheduling (dist : Adv.DistFn) (trip : Trip) (reschedulingOption : ReschedOption)
    (vehicles : List Vehicle) (al : List (Int × List Trip)) :
    Except String (ApplyResult × List (Int × List Trip)) :=
  match vehicles.find? (fun v => v.name = reschedulingOption.vehicle) with
  | none => .ok (.failure "Véhicule pour réorganisation non trouvé", al)
  | some targetVehicle =>
    match alGetT al targetVehicle.id with
    | none => .error "TypeError: reading find of undefined"
    | some currentTrips =>
      match findWithRemoved
          (fun t => t.patient = reschedulingOption.tripToReschedule.patient) currentTrips with
      | none => .ok (.failure "Course à réorganiser non trouvée", al)
      | some (tripToReschedule, remaining) =>
        match _hup : remaining ++
            [{ tripToReschedule with
                 time := some reschedulingOption.tripToReschedule.newTime
                 pickupTime := some reschedulingOption.tripToReschedule.newTime },
             { trip with estimatedDuration := some 1 }] with
        | updatedTrips =>
          match _hopt : Adv.calculateOptimizationScore dist trip targetVehicle updatedTrips with
          | optimization =>
            .ok (.success
              { vehicle := targetVehicle, score := optimization.score
                details := optimization.details }
              (.resched reschedulingOption.tripToReschedule),
              alSetT al targetVehicle.id updatedTrips)

/-- applyTripOptimization(trip, optimizationOption, vehicles,
vehicleAssignments): only combine_trips options with a 40-point score
are applied; everything else is not viable. -/
def applyTripOptimization (dist : Adv.DistFn) (trip : Trip)
    (optimizationOption : OptimizationOption)
    (vehicles : List Vehicle) (al : List (Int × List Trip)) :
    Except String (ApplyResult × List (Int × List Trip)) :=
  match optimizationOption with
  | .combineTrips _ details savings =>
    match vehicles.find? (fun v => details.vehicle = some v.name) with
    | none => .ok (.failure "Optimisation des courses non viable", al)
    | some targetVehicle =>
      match _hopt : Adv.calculateOptimizationScore dist trip targetVehicle
          ((alGetT al targetVehicle.id).getD []) with
      | optimization =>
        if optimization.score > 40 then
          match alGetT al targetVehicle.id with
          | none => .error "TypeError: push of undefined"
          | some currentTrips =>
            .ok (.success
              { vehicle := targetVehicle, score := optimization.score
                details := optimization.details }
              (.tripOpt "combine_trips" savings),
              alSetT al targetVehicle.id (currentTrips ++
                [{ trip with estimatedDuration :=
                     details.estimatedTime.map (fun m => (m : Rat) / 60) }]))
        else .ok (.failure "Optimisation des courses non viable", al)
  | .multiVehicle _ _ => .ok (.failure "Optimisation des courses non viable", al)

/-- applyResolutionStrategy(trip, strategy, vehicles,
vehicleAssignments): dispatch on the strategy type with its first
option; an empty options array would make the applier read a field of
undefined. -/
def applyResolutionStrategy (dist : Adv.DistFn) (trip : Trip) (strategy : Strategy)
    (vehicles : List Vehicle) (al : List (Int × List Trip)) :
    Except String (ApplyResult × List (Int × List Trip)) :=
  match strategy with
  | .timeAdjustment opts =>
    match opts with
    | [] => .error "TypeError: reading newTime of undefined"
    | o :: _ => applyTimeAdjustment dist trip o vehicles al
  | .vehicleChange opts =>
    match opts with
    | [] => .error "TypeError: reading vehicle of undefined"
    | o :: _ => applyVehicleChange dist trip o vehicles al
  | .rescheduleExisting opts =>
    match opts with
    | [] => .error "TypeError: reading vehicle of undefined"
    | o :: _ => applyRescheduling dist trip o vehicles al
  | .tripOptimization opts =>
    match opts with
    | [] => .error "TypeError: reading type of undefined"
    | o :: _ => applyTripOptimization dist trip o vehicles al

/-- The conflictResolution block of the batch result. -/
structure ConflictResolutionSummary where
  totalConflicts : Nat
  resolvedConflicts : Nat
  unresolvedConflicts : Nat
  resolutionRate : Int
deriving DecidableEq, Repr

/-- The summary block of the batch result; the assignment rate is NaN
when the trip list is empty. -/
structure BatchSummary where
  totalTrips : Nat
  assignedTrips : Nat
  unassignedTrips : Nat
  assignmentRate : Option Int
  totalDistance : Rat
  totalTime : Int
  averageOptimizationScore : Int
  estimatedFuelCost : Rat
deriving DecidableEq, Repr

/-- The full return object of optimizeMultipleTrips. -/
structure BatchResult where
  results : List BatchResultEntry
  conflictResolution : ConflictResolutionSummary
  summary : BatchSummary
deriving DecidableEq, Repr

/-- The vehicles refreshed against the current assignment map before
each lookup, as both passes rebuild them. -/
def updatedVehiclesOf (vehicles : List Vehicle) (al : List (Int × List Trip)) :
    List Vehicle :=
  vehicles.map (fun v => { v with trips := alGetT al v.id })

/-- The first pass of optimizeMultipleTrips: assign each sorted trip
when the recommendation has no conflicts, otherwise queue it for
conflict resolution.  Reading conflicts.length on the error detail of a
zero-score recommendation throws. -/
def pass1 (dist : Adv.DistFn) (vehicles : List Vehicle) :
    List Trip → List (Int × List Trip) → List BatchResultEntry → List Trip →
    Except String (List (Int × List Trip) × List BatchResultEntry × List Trip)
  | [], al, results, unresolvable => .ok (al, results, unresolvable)
  | trip :: rest, al, results, unresolvable =>
    match _ha : Adv.findBestVehicleAssignment dist trip (updatedVehiclesOf vehicles al) with
    | assignment =>
      if assignment.success then
        match assignment.recommended with
        | none => .error "TypeError: reading optimization of undefined"
        | some best =>
          match best.details.conflictsField with
          | none => .error "TypeError: reading length of undefined"
          | some conflicts =>
            if conflicts.length = 0 then
              match alGetT al best.vehicle.id with
              | none => .error "TypeError: push of undefined"
              | some currentTrips =>
                pass1 dist vehicles rest
                  (alSetT al best.vehicle.id (currentTrips ++
                    [withEstimatedDuration trip best.details]))
                  (results ++ [{ trip := trip
                                 assignment := some { vehicle := best.vehicle
                                                      score := best.score
                                                      details := best.details }
                                 status := "assigned"
                                 resolutionApplied := none
                                 resolutionDetails := none
                                 reason := none
                                 availableStrategies := none }])
                  unresolvable
            else pass1 dist vehicles rest al results (unresolvable ++ [trip])
      else pass1 dist vehicles rest al results (unresolvable ++ [trip])

/-- The second pass of optimizeMultipleTrips: run conflict resolution on
each queued trip and apply the recommended strategy. -/
def pass2 (dist : Adv.DistFn) (vehicles : List Vehicle) (allTrips : List Trip) :
    List Trip → List (Int × List Trip) → List BatchResultEntry →
    Except String (List (Int × List Trip) × List BatchResultEntry)
  | [], al, results => .ok (al, results)
  | conflictTrip :: rest, al, results =>
    match resolveConflicts dist conflictTrip (updatedVehiclesOf vehicles al) allTrips with
    | .error e => .error e
    | .ok conflictResolution =>
      match conflictResolution.recommendedStrategy with
      | some strategy =>
        match applyResolutionStrategy dist conflictTrip strategy
            (updatedVehiclesOf vehicles al) al with
        | .error e => .error e
        | .ok (.success assignment resolutionDetails, al2) =>
          pass2 dist vehicles allTrips rest al2
            (results ++ [{ trip := conflictTrip
                           assignment := some assignment
                           status := "assigned"
                           resolutionApplied := some strategy.typeName
                           resolutionDetails := some resolutionDetails
                           reason := none
                           availableStrategies := none }])
        | .ok (.failure _, al2) =>
          pass2 dist vehicles allTrips rest al2
            (results ++ [{ trip := conflictTrip
                           assignment := none
                           status := "unassigned"
                           resolutionApplied := none
                           resolutionDetails := none
                           reason := some "Conflicts non résolus malgré les stratégies disponibles"
                           availableStrategies := some
                             (conflictResolution.resolutionStrategies.map Strategy.description) }])
      | none =>
        pass2 dist vehicles allTrips rest al
          (results ++ [{ trip := conflictTrip
                         assignment := none
                         status := "unassigned"
                         resolutionApplied := none
                         resolutionDetails := none
                         reason := some "Aucune stratégie de résolution disponible"
                         availableStrategies := none }])

/-- The summary section; assigned entries always carry an assignment, so
the fallback 0 of the missing-field reads is never taken. -/
def buildBatchResult (trips : List Trip) (unresolvableCount : Nat)
    (results : List BatchResultEntry) : BatchResult :=
  let assignedTrips := results.filter (fun r => r.status = "assigned")
  let unassignedTrips := results.filter (fun r => r.status = "unassigned")
  let resolvedConflictCount := (results.filter (fun r => r.resolutionApplied.isSome)).length
  let totalDistance : Rat := assignedTrips.foldl (fun sum r =>
    sum + ((r.assignment.map (fun a => (a.details.totalDistanceField).getD 0)).getD 0)) 0
  let totalTime : Int := assignedTrips.foldl (fun sum r =>
    sum + ((r.assignment.map (fun a => (a.details.totalTimeField).getD 0)).getD 0)) 0
  let scoreSum : Int := assignedTrips.foldl (fun sum r =>
    sum + ((r.assignment.map (fun a => a.score)).getD 0)) 0
  { results := results
    conflictResolution :=
      { totalConflicts := unresolvableCount
        resolvedConflicts := resolvedConflictCount
        unresolvedConflicts := unassignedTrips.length
        resolutionRate := jsRound ((resolvedConflictCount : Rat) /
          ((max unresolvableCount 1 : Nat) : Rat) * 100) }
    summary :=
      { totalTrips := trips.length
        assignedTrips := assignedTrips.length
        unassignedTrips := unassignedTrips.length
        assignmentRate :=
          if trips.length = 0 then none
          else some (jsRound ((assignedTrips.length : Rat) / (trips.length : Rat) * 100))
        totalDistance := roundTo1 totalDistance
        totalTime := totalTime
        averageOptimizationScore := jsRound ((scoreSum : Rat) /
          ((max assignedTrips.length 1 : Nat) : Rat))
        estimatedFuelCost := roundTo2 (totalDistance * (15 / 100)) } }

/-- The initial assignment map: each vehicle id mapped to a copy of its
trips, the empty list when it has none. -/
def seedBatchAL (vehicles : List Vehicle) : List (Int × List Trip) :=
  vehicles.foldl (fun al v => alSetT al v.id (v.trips.getD [])) []

/-- optimizeMultipleTrips(trips, vehicles): seed the map, sort by
priority then time, run the assignment pass and then the
conflict-resolution pass, and build the summary. -/
def optimizeMultipleTrips (dist : Adv.DistFn) (trips : List Trip)
    (vehicles : List Vehicle) : Except String BatchResult :=
  match pass1 dist vehicles (trips.mergeSort advTripLE) (seedBatchAL vehicles) [] [] with
  | .error e => .error e
  | .ok (al1, results1, unresolvable) =>
    match pass2 dist vehicles trips unresolvable al1 results1 with
    | .error e => .error e
    | .ok (_, results) => .ok (buildBatchResult trips unresolvable.length results)

/-- The failing input of claim C1: a trip whose pickup address is
missing, with a healthy available vehicle of the matching type. -/
def c1Trip : Trip :=
  { id := 1
    destination := some "Toulon"
    vehicleType := some "VSL"
    priority := some "normal" }

def c1Vehicle : Vehicle :=
  { id := 1, name := "V1", type := some "VSL", status := some "available" }

/-- Claim C1 (code bug): the batch optimizer does not return normally on
every input.  A trip with a missing pickup address is scored through the
caught-error path, which yields a zero base score and an error detail
without a conflicts array; the enhanced-score floor still makes the
assignment succeed, and the first pass then reads length of the missing
conflicts array and throws a TypeError, so the whole run aborts with no
results and the spec-claimed one-entry-per-trip conservation fails. -/
theorem optimizeMultipleTrips_throws_on_missing_pickup :
    optimizeMultipleTrips (fun _ _ => 0) [c1Trip] [c1Vehicle] =
      .error "TypeError: reading length of undefined" := by
  have hms : [c1Trip].mergeSort advTripLE = [c1Trip] :=
    List.mergeSort_of_sorted (by decide)
  unfold optimizeMultipleTrips
  rw [hms]
  with_unfolding_all rfl

end Batch

end AmbuSched
